import Mathlib

/-!
Verification development for the `emailbison` CLI (campaign orchestration).

The definitions below are a shallow embedding of the Python sources under
`src/emailbison/`:

* `client.py`        — transport client: error mapping, lead-list lookup fallback,
                       sender-email attach/remove request bodies;
* `commands/campaign.py` — single-campaign workflow orchestrator, lead-list
                       polling loop, batch plan builder, batch workflow loop;
* `models.py`        — declarative data model (`CampaignCreateSpec` and friends).

JSON values are modelled by the inductive `JVal`; Python `None` is `JVal.null`,
and the absence of a key in a dict is `Option.none` after lookup.  HTTP traffic
is modelled by oracles (`ApiCall → Except EBError JVal` for the orchestrator,
`Nat → Except EBError JVal` for the polling loop), so each theorem quantifies
over every possible remote behaviour.

The classes `SenderEmailSelector` and `WorkflowStepResult`, the `start` flag and
the selector field of `CampaignCreateSpec`, and the extended fields of
`CreateCampaignResult` are used by `commands/campaign.py` but absent from the
copy of `models.py` in the repository snapshot; where needed they are modelled
from the specification (see the doc comments marked "Modelled from the spec").
-/

/-- JSON value, as produced by `resp.json()` in the Python client. -/
inductive JVal where
  | null
  | bool (b : Bool)
  | int (n : Int)
  | str (s : String)
  | arr (elems : List JVal)
  | obj (fields : List (String × JVal))

/-- Dictionary lookup: `raw.get(k)` on a JSON object.  Returns `none` when the
key is missing or the value is not an object (mirroring Python's
`isinstance(x, dict)` guards that always precede `.get` on nested values). -/
def JVal.get? (v : JVal) (k : String) : Option JVal :=
  match v with
  | .obj fields => (fields.find? (fun p => p.1 == k)).map Prod.snd
  | _ => none

/-- `isinstance(v, int)` projection. -/
def JVal.asInt? : JVal → Option Int
  | .int n => some n
  | _ => none

/-- `isinstance(v, str)` projection. -/
def JVal.asStr? : JVal → Option String
  | .str s => some s
  | _ => none

/-- ASCII lower-casing of one character, as `str.lower` acts on the ASCII
range (all status and header strings handled by this program are ASCII). -/
def lowerChar (c : Char) : Char :=
  if 65 ≤ c.toNat ∧ c.toNat ≤ 90 then Char.ofNat (c.toNat + 32) else c

/-- Whitespace test used by `str.strip` (ASCII whitespace). -/
def isSpaceChar (c : Char) : Bool :=
  c.toNat = 32 ∨ c.toNat = 9 ∨ c.toNat = 10 ∨ c.toNat = 11 ∨ c.toNat = 12 ∨ c.toNat = 13

/-- Remove leading and trailing whitespace from a character list. -/
def stripChars (l : List Char) : List Char :=
  ((l.dropWhile isSpaceChar).reverse.dropWhile isSpaceChar).reverse

/-- Python `s.strip()`. -/
def pyStrip (s : String) : String :=
  String.mk (stripChars s.data)

/-- Python `s.strip().lower()` (equivalently `s.lower().strip()`; stripping and
ASCII lower-casing commute).  Used to normalise statuses and CSV headers. -/
def pyNorm (s : String) : String :=
  String.mk (stripChars (s.data.map lowerChar))

/-- Python `str(v)` on a JSON value, used by the sender-email status filter
(`str(row.get("status"))`).  Composite values are abstracted by fixed
bracketed stand-ins: the code only ever compares this string against a plain
status-filter string, and Python's `repr`-style printing of a list or dict
always contains a bracket, so the stand-ins preserve every comparison the
program performs on realistic data. -/
def pyStrVal : JVal → String
  | .null => "None"
  | .bool true => "True"
  | .bool false => "False"
  | .int n => toString n
  | .str s => s
  | .arr _ => "[list]"
  | .obj _ => "[dict]"

/-- Python `str(d.get(k))`: a missing key yields `None`, printed `"None"`. -/
def pyStrOpt : Option JVal → String
  | none => "None"
  | some v => pyStrVal v

/-!
## Transport client (`client.py`)
-/

/-- The typed error hierarchy of `client.py`: `AuthError`, `ApiError`
(with optional status code and parsed details) and `NetworkError`. -/
inductive EBError where
  | authError (msg : String)
  | apiError (msg : String) (statusCode : Option Nat) (details : JVal)
  | networkError (msg : String)

/-- The body of a response: a parsed JSON value, or non-JSON text
(`resp.json()` raised). -/
inductive BodyKind where
  | jsonVal (v : JVal)
  | notJson (text : String)

/-- What one HTTP attempt can produce at the `httpx` layer:
a timeout exception, another transport exception, or an actual response. -/
inductive HttpOutcome where
  | timeoutExc
  | transportExc
  | response (statusCode : Nat) (retryAfter : Option String) (body : BodyKind)

/-- `_safe_json`: wrap non-object JSON under `"data"` and non-JSON text under
`"text"`. -/
def safeJson : BodyKind → JVal
  | .jsonVal (.obj fields) => .obj fields
  | .jsonVal v => .obj [("data", v)]
  | .notJson t => .obj [("text", .str t)]

/-- The message of the 429 error: `"Rate limited (429)."` plus the
`retry-after` header when present. -/
def rateLimitMsg : Option String → String
  | none => "Rate limited (429)."
  | some ra => "Rate limited (429)." ++ " Retry-After: " ++ ra

/-- `EmailBisonClient._raise_for_status`: `none` when the response is accepted,
`some e` for the error raised. -/
def raiseForStatus (statusCode : Nat) (retryAfter : Option String) (body : BodyKind) :
    Option EBError :=
  if statusCode = 401 ∨ statusCode = 403 then
    some (.authError "Auth failed (401/403). Set EMAILBISON_API_TOKEN or config api_token.")
  else if statusCode = 429 then
    some (.apiError (rateLimitMsg retryAfter) (some statusCode) (safeJson body))
  else if 400 ≤ statusCode then
    some (.apiError ("API error (" ++ toString statusCode ++ ").") (some statusCode) (safeJson body))
  else none

/-- `EmailBisonClient.request_json`, given the outcome of the underlying
`httpx` call: timeouts and transport exceptions become `NetworkError`,
error statuses are classified by `raiseForStatus`, and accepted responses
return the `_safe_json` of the body. -/
def requestJson : HttpOutcome → Except EBError JVal
  | .timeoutExc => .error (.networkError "Network timeout calling EmailBison")
  | .transportExc => .error (.networkError "Network error calling EmailBison")
  | .response statusCode retryAfter body =>
    match raiseForStatus statusCode retryAfter body with
    | some e => .error e
    | none => .ok (safeJson body)

/-- The two historical endpoint shapes tried by
`EmailBisonClient.get_lead_list`. -/
def leadListCandidatePaths (leadListId : Int) : List String :=
  ["/api/leads/lists/" ++ toString leadListId, "/api/lead-lists/" ++ toString leadListId]

/-- Status code carried by the last `ApiError` seen (`None` when no attempt
raised an `ApiError`). -/
def lastErrorStatus : Option EBError → Option Nat
  | some (.apiError _ st _) => st
  | _ => none

/-- Details carried by the last `ApiError` seen (`None` otherwise). -/
def lastErrorDetails : Option EBError → JVal
  | some (.apiError _ _ d) => d
  | _ => .null

/-- The loop body of `get_lead_list`: try each candidate path in order; an
`ApiError` with status exactly 404 falls through to the next path, any other
error aborts at once; when every path yielded 404 a composed
"no supported endpoint" error is raised.  Besides the result it returns the
list of paths actually attempted. -/
def getLeadListGo (fetch : String → Except EBError JVal) (leadListId : Int) :
    List String → Option EBError → Except EBError JVal × List String
  | [], lastError =>
    (.error (.apiError
        ("Unable to fetch lead list " ++ toString leadListId ++ "; no supported endpoint found.")
        (lastErrorStatus lastError) (lastErrorDetails lastError)), [])
  | path :: rest, _ =>
    match fetch path with
    | .ok v => (.ok v, [path])
    | .error e =>
      match e with
      | .apiError m st d =>
        if st = some 404 then
          let next := getLeadListGo fetch leadListId rest (some (.apiError m st d))
          (next.1, path :: next.2)
        else (.error e, [path])
      | _ => (.error e, [path])

/-- `EmailBisonClient.get_lead_list`. -/
def getLeadList (fetch : String → Except EBError JVal) (leadListId : Int) :
    Except EBError JVal × List String :=
  getLeadListGo fetch leadListId (leadListCandidatePaths leadListId) none

/-- Request body of `EmailBisonClient.attach_sender_emails`: every integer id
is serialised as its decimal string. -/
def attachSenderEmailsBody (senderEmailIds : List Int) : JVal :=
  .obj [("sender_email_ids", .arr (senderEmailIds.map (fun x => .str (toString x))))]

/-- `attach_sender_emails` request: method, path, body. -/
def attachSenderEmailsRequest (campaignId : Int) (senderEmailIds : List Int) :
    String × String × JVal :=
  ("POST", "/api/campaigns/" ++ toString campaignId ++ "/attach-sender-emails",
    attachSenderEmailsBody senderEmailIds)

/-- Request body of `EmailBisonClient.remove_sender_emails` (same
stringification of the ids). -/
def removeSenderEmailsBody (senderEmailIds : List Int) : JVal :=
  .obj [("sender_email_ids", .arr (senderEmailIds.map (fun x => .str (toString x))))]

/-- `remove_sender_emails` request: method, path, body. -/
def removeSenderEmailsRequest (campaignId : Int) (senderEmailIds : List Int) :
    String × String × JVal :=
  ("DELETE", "/api/campaigns/" ++ toString campaignId ++ "/remove-sender-emails",
    removeSenderEmailsBody senderEmailIds)

/-!
## Data model (`models.py`, completed from the spec where the snapshot is partial)
-/

/-- `CampaignSettings` (`models.py`): every field optional. -/
structure CampaignSettings where
  name : Option String := none
  max_emails_per_day : Option Int := none
  max_new_leads_per_day : Option Int := none
  plain_text : Option Bool := none
  open_tracking : Option Bool := none
  reputation_building : Option Bool := none
  can_unsubscribe : Option Bool := none
  unsubscribe_text : Option String := none
  include_auto_replies_in_stats : Option Bool := none

/-- `CampaignSchedule` (`models.py`). -/
structure CampaignSchedule where
  monday : Bool := true
  tuesday : Bool := true
  wednesday : Bool := true
  thursday : Bool := true
  friday : Bool := true
  saturday : Bool := false
  sunday : Bool := false
  start_time : String
  end_time : String
  timezone : String
  save_as_template : Bool := false

/-- `SequenceStep` (`models.py`). -/
structure SequenceStep where
  email_subject : String
  email_subject_variables : Option (List String) := none
  order : Option Int := none
  email_body : String
  wait_in_days : Int
  variant : Option Bool := none
  variant_from_step : Option Int := none
  variant_from_step_id : Option Int := none
  thread_reply : Option Bool := none

/-- `SequenceSpec` (`models.py`). -/
structure SequenceSpec where
  title : String
  sequence_steps : List SequenceStep

/-- `LeadsSpec` (`models.py`). -/
structure LeadsSpec where
  lead_list_id : Option Int := none
  lead_ids : Option (List Int) := none
  allow_parallel_sending : Bool := false

/-- Modelled from the spec: `SenderEmailSelector`, the declarative sender-email
filter (search text, tag inclusion/exclusion, without-tags flag, status filter,
numeric limit).  The class is absent from the snapshot's `models.py`; its
fields are exactly those read from `spec.sender_emails` by
`commands/campaign.py` (lines 349–380). -/
structure SenderEmailSelector where
  search : Option String := none
  tag_ids : Option (List Int) := none
  excluded_tag_ids : Option (List Int) := none
  without_tags : Option Bool := none
  status : Option String := none
  limit : Nat

/-- `CampaignCreateSpec` (`models.py`).  The `sender_emails` selector and the
`start` flag are modelled from the spec (both are read by
`commands/campaign.py` but absent from the snapshot's `models.py`). -/
structure CampaignCreateSpec where
  name : String
  type : String := "outbound"
  settings : Option CampaignSettings := none
  schedule : Option CampaignSchedule := none
  sequence : Option SequenceSpec := none
  sender_email_ids : Option (List Int) := none
  sender_emails : Option SenderEmailSelector := none
  leads : Option LeadsSpec := none
  start : Bool := false

/-- The pydantic validation of `CampaignCreateSpec` and its nested models
(non-empty name, campaign-type enum, `min_length=1` lists, the mutual
exclusivity validators, non-negative wait), plus the spec's invariant that
explicit sender ids and a selector are never both set. -/
def CampaignCreateSpec.valid (s : CampaignCreateSpec) : Prop :=
  s.name ≠ "" ∧
  (s.type = "outbound" ∨ s.type = "reply_followup") ∧
  (∀ ids, s.sender_email_ids = some ids → ids ≠ []) ∧
  ¬(s.sender_email_ids.isSome ∧ s.sender_emails.isSome) ∧
  (∀ l, s.leads = some l → ¬(l.lead_list_id.isSome ∧ l.lead_ids.isSome)) ∧
  (∀ sq, s.sequence = some sq →
    sq.title ≠ "" ∧ sq.sequence_steps ≠ [] ∧
    ∀ st ∈ sq.sequence_steps,
      st.email_subject ≠ "" ∧ st.email_body ≠ "" ∧ 0 ≤ st.wait_in_days ∧
      ¬(st.variant_from_step.isSome ∧ st.variant_from_step_id.isSome))

/-- Modelled from the spec: `CreateCampaignResult`, the terminal outcome of a
single-campaign workflow.  The snapshot's `models.py` keeps only
`id`/`name`/`status`/`raw`; the remaining fields are the ones the orchestrator
fills in (`commands/campaign.py` lines 523–534) as the spec describes.  The
step audit trail is represented separately by the call trace returned next to
the result. -/
structure CreateCampaignResult where
  id : Int
  name : String
  status : Option String := none
  sender_email_ids : Option (List Int) := none
  sequence_id : Option Int := none
  sequence_step_ids : Option (List Int) := none
  started : Bool := false
  start_status : Option String := none
  raw : JVal

/-- Helper for `model_dump(exclude_none=True)`: keep a field only when set. -/
def optField (k : String) (v : Option JVal) : Option (String × JVal) :=
  v.map (fun x => (k, x))

/-- `settings.model_dump(exclude_none=True)` as a JSON object. -/
def CampaignSettings.dump (s : CampaignSettings) : JVal :=
  .obj (List.filterMap id
    [optField "name" (s.name.map JVal.str),
     optField "max_emails_per_day" (s.max_emails_per_day.map JVal.int),
     optField "max_new_leads_per_day" (s.max_new_leads_per_day.map JVal.int),
     optField "plain_text" (s.plain_text.map JVal.bool),
     optField "open_tracking" (s.open_tracking.map JVal.bool),
     optField "reputation_building" (s.reputation_building.map JVal.bool),
     optField "can_unsubscribe" (s.can_unsubscribe.map JVal.bool),
     optField "unsubscribe_text" (s.unsubscribe_text.map JVal.str),
     optField "include_auto_replies_in_stats" (s.include_auto_replies_in_stats.map JVal.bool)])

/-- `schedule.model_dump(exclude_none=True)` (no field of the schedule is
optional, so every field is emitted). -/
def CampaignSchedule.dump (s : CampaignSchedule) : JVal :=
  .obj [("monday", .bool s.monday), ("tuesday", .bool s.tuesday),
    ("wednesday", .bool s.wednesday), ("thursday", .bool s.thursday),
    ("friday", .bool s.friday), ("saturday", .bool s.saturday),
    ("sunday", .bool s.sunday), ("start_time", .str s.start_time),
    ("end_time", .str s.end_time), ("timezone", .str s.timezone),
    ("save_as_template", .bool s.save_as_template)]

/-- One sequence step dumped with `exclude_none=True`. -/
def SequenceStep.dump (s : SequenceStep) : JVal :=
  .obj (List.filterMap id
    [optField "email_subject" (some (.str s.email_subject)),
     optField "email_subject_variables"
       (s.email_subject_variables.map (fun l => .arr (l.map JVal.str))),
     optField "order" (s.order.map JVal.int),
     optField "email_body" (some (.str s.email_body)),
     optField "wait_in_days" (some (.int s.wait_in_days)),
     optField "variant" (s.variant.map JVal.bool),
     optField "variant_from_step" (s.variant_from_step.map JVal.int),
     optField "variant_from_step_id" (s.variant_from_step_id.map JVal.int),
     optField "thread_reply" (s.thread_reply.map JVal.bool)])

/-- The `{title, sequence_steps}` payload sent to the v1.1 sequence-steps
endpoint. -/
def SequenceSpec.payload (s : SequenceSpec) : JVal :=
  .obj [("title", .str s.title),
    ("sequence_steps", .arr (s.sequence_steps.map SequenceStep.dump))]

/-!
## Single-campaign workflow orchestrator (`create_campaign`, `commands/campaign.py`)
-/

/-- The remote calls the orchestrator can issue, one constructor per
`EmailBisonClient` helper it uses. -/
inductive ApiCall where
  | createCampaign (name type : String)
  | updateCampaignSettings (campaignId : Int) (payload : JVal)
  | createCampaignSchedule (campaignId : Int) (payload : JVal)
  | createSequenceStepsV11 (campaignId : Int) (payload : JVal)
  | listSenderEmails (search : Option String) (tagIds : Option (List Int))
      (excludedTagIds : Option (List Int)) (withoutTags : Option Bool)
  | attachSenderEmails (campaignId : Int) (senderEmailIds : List Int)
  | attachLeadList (campaignId : Int) (leadListId : Int) (allowParallelSending : Bool)
  | attachLeads (campaignId : Int) (leadIds : List Int) (allowParallelSending : Bool)
  | campaignDetails (campaignId : Int)
  | getCampaignSenderEmails (campaignId : Int)
  | getSequenceStepsV11 (campaignId : Int)
  | resumeCampaign (campaignId : Int)

/-- HTTP method used by each call (`client.py`). -/
def ApiCall.httpMethod : ApiCall → String
  | .createCampaign _ _ => "POST"
  | .updateCampaignSettings _ _ => "PATCH"
  | .createCampaignSchedule _ _ => "POST"
  | .createSequenceStepsV11 _ _ => "POST"
  | .listSenderEmails _ _ _ _ => "GET"
  | .attachSenderEmails _ _ => "POST"
  | .attachLeadList _ _ _ => "POST"
  | .attachLeads _ _ _ => "POST"
  | .campaignDetails _ => "GET"
  | .getCampaignSenderEmails _ => "GET"
  | .getSequenceStepsV11 _ => "GET"
  | .resumeCampaign _ => "PATCH"

/-- An API oracle: the remote system's answer to each call the workflow could
make (success body, or the typed transport error the client raised). -/
abbrev ApiOracle := ApiCall → Except EBError JVal

/-- The errors a workflow run terminates with: a locally detected
`WorkflowValidationError`, a `ValueError` from response extraction, or a
propagated transport error. -/
inductive WError where
  | validation (msg : String)
  | valueErr (msg : String)
  | transport (e : EBError)

/-- A workflow outcome together with the trace of remote calls issued
(a call that raised is still in the trace: it was issued). -/
abbrev WfResult := Except WError CreateCampaignResult × List ApiCall

/-- `_extract_id`: `raw["data"]["id"]` when it is an `int`. -/
def extractId (raw : JVal) : Option Int :=
  (raw.get? "data").bind (fun d => (d.get? "id").bind JVal.asInt?)

/-- `_extract_status`: `raw["data"]["status"]` when it is a `str`. -/
def extractStatus (raw : JVal) : Option String :=
  (raw.get? "data").bind (fun d => (d.get? "status").bind JVal.asStr?)

/-- The candidate-id list of the sender-email selector resolution
(`create_campaign` lines 365–377): rows of `data` that are dicts with an
integer `id`, further filtered — when a status filter is given — by
`str(row.get("status")) != str(status)`, reduced to their ids in discovery
order. -/
def senderRowId (statusFilter : Option String) (row : JVal) : Option Int :=
  match row with
  | .obj _ =>
    match row.get? "id" with
    | some (.int n) =>
      match statusFilter with
      | none => some n
      | some st => if pyStrOpt (row.get? "status") == st then some n else none
    | _ => none
  | _ => none

/-- The candidate ids in discovery order (see `senderRowId`). -/
def senderCandidateIds (statusFilter : Option String) (rawSender : JVal) : List Int :=
  match rawSender.get? "data" with
  | some (.arr rows) => rows.filterMap (senderRowId statusFilter)
  | _ => []

/-- Sender-selector resolution: sort the surviving candidates ascending by id
(`candidates.sort(key=...)`, a stable sort — immaterial once reduced to ids)
and truncate to the selector's limit (`candidates[:limit]`). -/
def resolveSenderIds (sel : SenderEmailSelector) (rawSender : JVal) : List Int :=
  (List.insertionSort (fun a b => a ≤ b) (senderCandidateIds sel.status rawSender)).take sel.limit

/-- The validation message raised when the selector matches nothing. -/
def senderSelectorEmptyMsg : String :=
  "No sender emails matched sender_emails selector. " ++
    "Try `emailbison sender-emails list` to inspect available accounts."

/-- The start preflight's missing-conditions list (`create_campaign` lines
443–492): a positive `total_leads`, at least one attached sender email and at
least one sequence step are required; every check runs and every failure is
collected. -/
def preflightMissing (detailsRaw sendersRaw seqRaw : JVal) : List String :=
  let totalLeads := (detailsRaw.get? "data").bind (fun d => (d.get? "total_leads").bind JVal.asInt?)
  let leadsMissing : Bool :=
    match totalLeads with
    | some n => n = 0
    | none => true
  let sendersMissing : Bool :=
    match sendersRaw.get? "data" with
    | some (.arr l) => l.isEmpty
    | _ => true
  let seqMissing : Bool :=
    match (seqRaw.get? "data").bind (fun d => d.get? "sequence_steps") with
    | some (.arr l) => l.isEmpty
    | _ => true
  (if leadsMissing then ["no leads attached"] else []) ++
    (if sendersMissing then ["no sender emails attached"] else []) ++
    (if seqMissing then ["no sequence steps"] else [])

/-- Assemble the successful `CreateCampaignResult` (lines 523–534). -/
def finishResult (spec : CampaignCreateSpec) (campaignId : Int) (createdRaw : JVal)
    (sequenceId : Option Int) (sequenceStepIds : Option (List Int))
    (attached : Option (List Int)) (started : Bool) (startStatus : Option String)
    (trace : List ApiCall) : WfResult :=
  (.ok { id := campaignId, name := spec.name, status := extractStatus createdRaw,
         sender_email_ids := attached, sequence_id := sequenceId,
         sequence_step_ids := sequenceStepIds, started := started,
         start_status := startStatus, raw := createdRaw }, trace)

/-- Step 8 — optional start with preflight (lines 440–521): fetch details,
attached sender emails and sequence steps, collect every missing condition,
refuse to start unless the list is empty or `--force-start` was given, then
resume and re-fetch the details for the resulting status. -/
def stageStart (api : ApiOracle) (spec : CampaignCreateSpec) (forceStart : Bool)
    (campaignId : Int) (createdRaw : JVal) (sequenceId : Option Int)
    (sequenceStepIds : Option (List Int)) (attached : Option (List Int))
    (trace : List ApiCall) : WfResult :=
  if spec.start then
    let t1 := trace ++ [ApiCall.campaignDetails campaignId]
    match api (.campaignDetails campaignId) with
    | .error e => (.error (.transport e), t1)
    | .ok detailsRaw =>
      let t2 := t1 ++ [ApiCall.getCampaignSenderEmails campaignId]
      match api (.getCampaignSenderEmails campaignId) with
      | .error e => (.error (.transport e), t2)
      | .ok sendersRaw =>
        let t3 := t2 ++ [ApiCall.getSequenceStepsV11 campaignId]
        match api (.getSequenceStepsV11 campaignId) with
        | .error e => (.error (.transport e), t3)
        | .ok seqRaw =>
          let missing := preflightMissing detailsRaw sendersRaw seqRaw
          if !missing.isEmpty && !forceStart then
            (.error (.validation
                ("Refusing to start campaign (preflight failed): " ++
                  String.intercalate ", " missing)), t3)
          else
            let t4 := t3 ++ [ApiCall.resumeCampaign campaignId]
            match api (.resumeCampaign campaignId) with
            | .error e => (.error (.transport e), t4)
            | .ok _ =>
              let t5 := t4 ++ [ApiCall.campaignDetails campaignId]
              match api (.campaignDetails campaignId) with
              | .error e => (.error (.transport e), t5)
              | .ok details2 =>
                finishResult spec campaignId createdRaw sequenceId sequenceStepIds
                  attached true (extractStatus details2) t5
  else
    finishResult spec campaignId createdRaw sequenceId sequenceStepIds attached
      false none trace

/-- Step 7 — optional lead attachment (lines 404–438): by lead-list id, or
else by explicit lead ids. -/
def stageLeads (api : ApiOracle) (spec : CampaignCreateSpec) (forceStart : Bool)
    (campaignId : Int) (createdRaw : JVal) (sequenceId : Option Int)
    (sequenceStepIds : Option (List Int)) (attached : Option (List Int))
    (trace : List ApiCall) : WfResult :=
  match spec.leads with
  | none => stageStart api spec forceStart campaignId createdRaw sequenceId
      sequenceStepIds attached trace
  | some l =>
    match l.lead_list_id with
    | some leadListId =>
      let t := trace ++ [ApiCall.attachLeadList campaignId leadListId l.allow_parallel_sending]
      match api (.attachLeadList campaignId leadListId l.allow_parallel_sending) with
      | .error e => (.error (.transport e), t)
      | .ok _ => stageStart api spec forceStart campaignId createdRaw sequenceId
          sequenceStepIds attached t
    | none =>
      match l.lead_ids with
      | some leadIds =>
        let t := trace ++ [ApiCall.attachLeads campaignId leadIds l.allow_parallel_sending]
        match api (.attachLeads campaignId leadIds l.allow_parallel_sending) with
        | .error e => (.error (.transport e), t)
        | .ok _ => stageStart api spec forceStart campaignId createdRaw sequenceId
            sequenceStepIds attached t
      | none => stageStart api spec forceStart campaignId createdRaw sequenceId
          sequenceStepIds attached trace

/-- Step 6 — attach the resolved sender ids when the list is truthy
(`if sender_ids_to_attach:`, lines 388–402). -/
def stageAttachSenders (api : ApiOracle) (spec : CampaignCreateSpec) (forceStart : Bool)
    (campaignId : Int) (createdRaw : JVal) (sequenceId : Option Int)
    (sequenceStepIds : Option (List Int)) (senderIdsToAttach : Option (List Int))
    (trace : List ApiCall) : WfResult :=
  match senderIdsToAttach with
  | some ids =>
    if ids.isEmpty then
      stageLeads api spec forceStart campaignId createdRaw sequenceId
        sequenceStepIds none trace
    else
      let t := trace ++ [ApiCall.attachSenderEmails campaignId ids]
      match api (.attachSenderEmails campaignId ids) with
      | .error e => (.error (.transport e), t)
      | .ok _ => stageLeads api spec forceStart campaignId createdRaw sequenceId
          sequenceStepIds (some ids) t
  | none =>
    stageLeads api spec forceStart campaignId createdRaw sequenceId
      sequenceStepIds none trace

/-- Step 5 — resolve the sender-email ids (lines 345–386): explicit ids are
used verbatim; otherwise a selector lists the accounts, filters, sorts and
truncates, failing with a validation error when nothing survives; with
neither, attachment is skipped. -/
def stageSenders (api : ApiOracle) (spec : CampaignCreateSpec) (forceStart : Bool)
    (campaignId : Int) (createdRaw : JVal) (sequenceId : Option Int)
    (sequenceStepIds : Option (List Int)) (trace : List ApiCall) : WfResult :=
  match spec.sender_email_ids with
  | some ids =>
    stageAttachSenders api spec forceStart campaignId createdRaw sequenceId
      sequenceStepIds (some ids) trace
  | none =>
    match spec.sender_emails with
    | none =>
      stageAttachSenders api spec forceStart campaignId createdRaw sequenceId
        sequenceStepIds none trace
    | some sel =>
      let c := ApiCall.listSenderEmails sel.search sel.tag_ids sel.excluded_tag_ids
        sel.without_tags
      let t := trace ++ [c]
      match api c with
      | .error e => (.error (.transport e), t)
      | .ok rawSender =>
        let ids := resolveSenderIds sel rawSender
        if ids.isEmpty then (.error (.validation senderSelectorEmptyMsg), t)
        else
          stageAttachSenders api spec forceStart campaignId createdRaw sequenceId
            sequenceStepIds (some ids) t

/-- Step 4 — optional sequence creation (lines 318–343), harvesting the
created sequence id and step ids best-effort from the response. -/
def stageSequence (api : ApiOracle) (spec : CampaignCreateSpec) (forceStart : Bool)
    (campaignId : Int) (createdRaw : JVal) (trace : List ApiCall) : WfResult :=
  match spec.sequence with
  | none => stageSenders api spec forceStart campaignId createdRaw none none trace
  | some sq =>
    let t := trace ++ [ApiCall.createSequenceStepsV11 campaignId sq.payload]
    match api (.createSequenceStepsV11 campaignId sq.payload) with
    | .error e => (.error (.transport e), t)
    | .ok seqRaw =>
      let sequenceId := (seqRaw.get? "data").bind (fun d => (d.get? "id").bind JVal.asInt?)
      let stepIds :=
        match (seqRaw.get? "data").bind (fun d => d.get? "sequence_steps") with
        | some (.arr rows) =>
          let ids := rows.filterMap (fun r => (r.get? "id").bind JVal.asInt?)
          if ids.isEmpty then none else some ids
        | _ => none
      stageSenders api spec forceStart campaignId createdRaw sequenceId stepIds t

/-- Step 3 — optional schedule (lines 303–316). -/
def stageSchedule (api : ApiOracle) (spec : CampaignCreateSpec) (forceStart : Bool)
    (campaignId : Int) (createdRaw : JVal) (trace : List ApiCall) : WfResult :=
  match spec.schedule with
  | none => stageSequence api spec forceStart campaignId createdRaw trace
  | some sch =>
    let t := trace ++ [ApiCall.createCampaignSchedule campaignId sch.dump]
    match api (.createCampaignSchedule campaignId sch.dump) with
    | .error e => (.error (.transport e), t)
    | .ok _ => stageSequence api spec forceStart campaignId createdRaw t

/-- Step 2 — optional settings update (lines 288–301). -/
def stageSettings (api : ApiOracle) (spec : CampaignCreateSpec) (forceStart : Bool)
    (campaignId : Int) (createdRaw : JVal) (trace : List ApiCall) : WfResult :=
  match spec.settings with
  | none => stageSchedule api spec forceStart campaignId createdRaw trace
  | some st =>
    let t := trace ++ [ApiCall.updateCampaignSettings campaignId st.dump]
    match api (.updateCampaignSettings campaignId st.dump) with
    | .error e => (.error (.transport e), t)
    | .ok _ => stageSchedule api spec forceStart campaignId createdRaw t

/-- The single-campaign workflow (`create_campaign`, lines 268–534): create
the campaign, extract its id (a `ValueError` if absent), then run steps 2–8.
Returns the terminal outcome and the trace of every remote call issued. -/
def runCreateCampaignWorkflow (api : ApiOracle) (spec : CampaignCreateSpec)
    (forceStart : Bool) : WfResult :=
  let c := ApiCall.createCampaign spec.name spec.type
  match api c with
  | .error e => (.error (.transport e), [c])
  | .ok createdRaw =>
    match extractId createdRaw with
    | none => (.error (.valueErr "Could not extract campaign id from response"), [c])
    | some campaignId => stageSettings api spec forceStart campaignId createdRaw [c]

/-!
## Lead-list polling loop (`_wait_for_lead_list_processing`)
-/

/-- `LEAD_LIST_PENDING_STATUSES` (`commands/campaign.py` line 73). -/
def leadListPendingStatuses : List String := ["unprocessed", "processing", "pending", "queued"]

/-- `LEAD_LIST_FAILED_STATUSES` (line 74). -/
def leadListFailedStatuses : List String := ["failed", "error"]

/-- `LEAD_LIST_POLL_INTERVAL_SECONDS` (line 75). -/
def leadListPollIntervalSeconds : Nat := 2

/-- `LEAD_LIST_POLL_TIMEOUT_SECONDS` (line 76). -/
def leadListPollTimeoutSeconds : Nat := 300

/-- With zero network latency the loop polls at elapsed times 0, 2, …, 300
(the `while` guard is `elapsed <= timeout` and every continue sleeps one
interval), i.e. `timeout / interval + 1` attempts before the timeout fires. -/
def leadListPollBudget : Nat := leadListPollTimeoutSeconds / leadListPollIntervalSeconds + 1

/-- `_extract_lead_list_status`: probe `data`, `data["lead_list"]` and the raw
response itself, in that order, for a string `status`. -/
def extractLeadListStatus (raw : JVal) : Option String :=
  let cands :=
    (match raw.get? "data" with
     | some (.obj dFields) =>
       [JVal.obj dFields] ++
         (match (JVal.obj dFields).get? "lead_list" with
          | some (.obj llFields) => [JVal.obj llFields]
          | _ => [])
     | _ => []) ++ [raw]
  cands.findSome? (fun c => (c.get? "status").bind JVal.asStr?)

/-- The `WorkflowValidationError` raised when the list failed before polling. -/
def leadListFailedImmediatelyMsg (leadListId : Int) (status : String) : String :=
  "Lead list " ++ toString leadListId ++ " failed immediately: " ++ status

/-- The `WorkflowValidationError` raised on a polled failed status. -/
def leadListFailedMsg (leadListId : Int) (status : String) : String :=
  "Lead list " ++ toString leadListId ++ " processing failed: " ++ status

/-- The distinct timeout `WorkflowValidationError`. -/
def leadListTimeoutMsg (leadListId : Int) : String :=
  "Timed out waiting for lead list " ++ toString leadListId ++ " to finish processing."

/-- The polling loop's `while` body (lines 1047–1058).  `polls i` is the
outcome of the `i`-th `get_lead_list` call (a raised transport error
propagates).  `budget` counts the attempts still inside the 300-second wall
clock; a missing status sleeps and retries, a failed status raises, a pending
status sleeps and retries, anything else is returned verbatim. -/
def leadListPollLoop (polls : Nat → Except EBError JVal) (leadListId : Int) :
    Nat → Nat → Except WError String
  | _, 0 => .error (.validation (leadListTimeoutMsg leadListId))
  | k, budget + 1 =>
    match polls k with
    | .error e => .error (.transport e)
    | .ok raw =>
      match extractLeadListStatus raw with
      | none => leadListPollLoop polls leadListId (k + 1) budget
      | some status =>
        if pyNorm status ∈ leadListFailedStatuses then
          .error (.validation (leadListFailedMsg leadListId status))
        else if pyNorm status ∈ leadListPendingStatuses then
          leadListPollLoop polls leadListId (k + 1) budget
        else .ok status

/-- One poll attempt that leaves the loop running: the call returned (did not
raise) and either no status could be read from the response (treated as still
pending) or the normalised status is in the pending set (and not in the
failed set, which is checked first). -/
def pollAttemptPending (polls : Nat → Except EBError JVal) (i : Nat) : Prop :=
  ∃ raw, polls i = .ok raw ∧
    (extractLeadListStatus raw = none ∨
      ∃ st, extractLeadListStatus raw = some st ∧
        pyNorm st ∉ leadListFailedStatuses ∧
        pyNorm st ∈ leadListPendingStatuses)

/-- `_wait_for_lead_list_processing` (lines 1034–1062).  Note the Python
truthiness guards `if status and …`: an empty initial status skips both
initial checks and falls through to the polling loop. -/
def waitForLeadListProcessing (leadListId : Int) (initialStatus : Option String)
    (polls : Nat → Except EBError JVal) : Except WError String :=
  match initialStatus with
  | some s =>
    if s ≠ "" ∧ pyNorm s ∈ leadListFailedStatuses then
      .error (.validation (leadListFailedImmediatelyMsg leadListId s))
    else if s ≠ "" ∧ pyNorm s ∉ leadListPendingStatuses then
      .ok s
    else leadListPollLoop polls leadListId 0 leadListPollBudget
  | none => leadListPollLoop polls leadListId 0 leadListPollBudget

/-!
## Batch plan builder (`_build_batch_plan` and helpers)
-/

/-- The filesystem path of one CSV file: the printed path, its final
component (`Path.name`) and the stem (`Path.stem`). -/
structure FsPath where
  full : String
  name : String
  stem : String

/-- `BatchFilePlan` (the frozen dataclass, lines 79–84). -/
structure BatchFilePlan where
  path : String
  campaign_name : String
  lead_count : Nat
  columns_to_map : List (String × String)

/-- One value of a `csv.DictReader` row dict: a cell string, the `None`
rest-value filled in for a row shorter than the header, or the list of
overflow cells a row longer than the header is given under the rest key. -/
inductive CellVal where
  | cell (s : String)
  | omitted
  | extras (cells : List String)

/-- Truthiness of `str(v).strip()` for a non-`None` row value: a cell counts
when it has non-whitespace content; an overflow list always counts because
`str` of a Python list is bracketed, hence never whitespace-only. -/
def cellTruthy : CellVal → Bool
  | .cell s => pyStrip s ≠ ""
  | .omitted => false
  | .extras _ => true

/-- Insert into a Python dict: an existing key keeps its position and is
overwritten, a new key is appended. -/
def insertDict {α : Type} [DecidableEq α] {β : Type} :
    List (α × β) → α → β → List (α × β)
  | [], k, v => [(k, v)]
  | (k', v') :: rest, k, v =>
    if k' = k then (k', v) :: rest else (k', v') :: insertDict rest k v

/-- The row dict `csv.DictReader` builds for one raw row:
`dict(zip(fieldnames, row))`, then the missing fieldnames assigned the
`None` rest-value, then — when the row is longer than the header — the
overflow cells as a list under the `None` rest key. -/
def dictOfRow (fieldnames row : List String) : List (Option String × CellVal) :=
  let seq : List (Option String × CellVal) :=
    ((fieldnames.zip row).map (fun p => (some p.1, CellVal.cell p.2))) ++
      ((fieldnames.drop row.length).map (fun k => (some k, CellVal.omitted))) ++
      (if fieldnames.length < row.length then
        [(none, CellVal.extras (row.drop fieldnames.length))]
       else [])
  seq.foldl (fun d p => insertDict d p.1 p.2) []

/-- `any(str(v).strip() for v in row.values() if v is not None)`. -/
def rowTruthy (d : List (Option String × CellVal)) : Bool :=
  d.any (fun p => cellTruthy p.2)

/-- `_pick_csv_column`: build `{name.strip().lower(): name}` (later duplicates
overwrite), then return the first alias whose normalised form maps to a
truthy column name. -/
def pickCsvColumn (fieldnames aliases : List String) : Option String :=
  let normalizedMap := fieldnames.foldl (fun m n => insertDict m (pyNorm n) n) []
  aliases.findSome? (fun a =>
    match (normalizedMap.find? (fun p => p.1 == pyNorm a)).map Prod.snd with
    | some chosen => if chosen = "" then none else some chosen
    | none => none)

/-- The district/company/organization header aliases
(`_extract_district_name_from_row`). -/
def districtKeys : List String :=
  ["district", "district_name", "districtname", "district name", "company", "organization"]

/-- `_extract_district_name_from_row`: the first non-`None` value under a
district-alias key whose stripped string is non-empty.  The overflow rest key
is Python `None`, whose `str` is `"None"` and never a district alias. -/
def extractDistrictNameFromRow (d : List (Option String × CellVal)) : Option String :=
  d.findSome? (fun p =>
    match p.2 with
    | .omitted => none
    | v =>
      match p.1 with
      | none => none
      | some key =>
        if districtKeys.contains (pyNorm key) then
          let cleaned :=
            pyStrip (match v with
              | .cell s => s
              | .omitted => ""
              | .extras _ => "[list]")
          if cleaned = "" then none else some cleaned
        else none)

/-- `_campaign_name_from_path`: the stem with `_` and `-` replaced by spaces
and stripped, falling back to the file name when that is empty. -/
def campaignNameFromPath (p : FsPath) : String :=
  let stem := pyStrip (String.mk (p.stem.data.map (fun c =>
    if c = '_' ∨ c = '-' then ' ' else c)))
  if stem = "" then p.name else stem

/-- The alias tables of `_build_batch_plan`. -/
def firstNameAliases : List String := ["first_name", "first name", "firstname", "first"]

/-- Last-name aliases. -/
def lastNameAliases : List String := ["last_name", "last name", "lastname", "last"]

/-- Email aliases. -/
def emailAliases : List String := ["email", "email_address", "email address", "emailwork"]

/-- `_build_batch_plan` over the parsed CSV content: `rawRows` is the row list
the `csv` reader yields (a blank line is `[]`).  `DictReader.fieldnames` is
the first row; data rows are the rest with blank rows skipped.  Fails with a
validation error naming the file when the header is absent (or blank), when a
required column cannot be resolved, or when no data row is truthy; otherwise
counts the truthy rows and derives the campaign name. -/
def buildBatchPlan (csvPath : FsPath) (rawRows : List (List String)) :
    Except WError BatchFilePlan :=
  match rawRows.head? with
  | none => .error (.validation ("CSV has no header row: " ++ csvPath.full))
  | some fieldnames =>
    if fieldnames.isEmpty then
      .error (.validation ("CSV has no header row: " ++ csvPath.full))
    else
      match pickCsvColumn fieldnames firstNameAliases,
          pickCsvColumn fieldnames lastNameAliases,
          pickCsvColumn fieldnames emailAliases with
      | some firstNameCol, some lastNameCol, some emailCol =>
        let dicts := ((rawRows.tail).filter (fun r => ¬r.isEmpty)).map (dictOfRow fieldnames)
        let leadCount := dicts.countP rowTruthy
        let districtName := dicts.findSome? extractDistrictNameFromRow
        let campaignName := districtName.getD (campaignNameFromPath csvPath)
        if leadCount = 0 then
          .error (.validation ("CSV contains no lead rows: " ++ csvPath.full))
        else
          .ok { path := csvPath.full, campaign_name := campaignName,
                lead_count := leadCount,
                columns_to_map := [("first_name", firstNameCol),
                  ("last_name", lastNameCol), ("email", emailCol)] }
      | _, _, _ =>
        .error (.validation
          ("CSV missing required columns (first_name,last_name,email): " ++ csvPath.full))

/-- The lead-row count the spec sentence describes, defined by its words for
comparison with the code: data rows having at least one cell with
non-whitespace content after stripping (raw CSV cells are never null). -/
def specLeadRowCount (rawRows : List (List String)) : Nat :=
  (rawRows.tail).countP (fun r => r.any (fun c => pyStrip c ≠ ""))

/-!
## Batch workflow orchestrator (`create_batch_campaigns`)
-/

/-- The Python exceptions that can escape processing one plan: the five
anticipated kinds named in the `except` clause (lines 816), or any other
exception type (carried with its type name). -/
inductive PyExc where
  | apiExc (msg : String)
  | authExc (msg : String)
  | networkExc (msg : String)
  | valueExc (msg : String)
  | workflowValidationExc (msg : String)
  | otherExc (excTypeName msg : String)

/-- Membership in `(ApiError, AuthError, NetworkError, ValueError,
WorkflowValidationError)` — the caught tuple. -/
def PyExc.isAnticipated : PyExc → Bool
  | .otherExc _ _ => false
  | _ => true

/-- `type(e).__name__`. -/
def PyExc.excName : PyExc → String
  | .apiExc _ => "ApiError"
  | .authExc _ => "AuthError"
  | .networkExc _ => "NetworkError"
  | .valueExc _ => "ValueError"
  | .workflowValidationExc _ => "WorkflowValidationError"
  | .otherExc n _ => n

/-- `str(e)`. -/
def PyExc.excMessage : PyExc → String
  | .apiExc m => m
  | .authExc m => m
  | .networkExc m => m
  | .valueExc m => m
  | .workflowValidationExc m => m
  | .otherExc _ m => m

/-- What processing one plan produces on success (upload → poll → create →
configure → attach, lines 754–796): the created campaign id, the lead-list id
extracted from the upload response, and the status the polling loop returned. -/
structure BatchPlanSuccess where
  campaign_id : Int
  lead_list_id : Int
  lead_list_status : String

/-- One entry of the per-file result list (lines 800–827). -/
inductive BatchFileResult where
  | ok (csv campaignName : String) (campaignId leadListId : Int)
      (leadListStatus : String) (leadCount : Nat)
  | err (csv campaignName : String) (leadCount : Nat) (errType errMessage : String)

/-- The aggregate counters of the batch summary (lines 744–747, 834–839). -/
structure BatchSummary where
  total_processed : Nat
  succeeded : Nat
  failed : Nat
  leads_loaded : Nat

/-- The per-plan `for` loop (lines 751–830): each plan increments
`total_processed`; a success updates the counters and appends a success
record; an anticipated exception appends a failure record carrying
`type(e).__name__` and `str(e)` and continues; any other exception
propagates and aborts the batch. -/
def runBatchLoop (process : BatchFilePlan → Except PyExc BatchPlanSuccess) :
    List BatchFilePlan → BatchSummary → List BatchFileResult →
    Except PyExc (BatchSummary × List BatchFileResult)
  | [], summary, results => .ok (summary, results)
  | plan :: rest, summary, results =>
    let summary := { summary with total_processed := summary.total_processed + 1 }
    match process plan with
    | .ok s =>
      runBatchLoop process rest
        { summary with succeeded := summary.succeeded + 1,
                       leads_loaded := summary.leads_loaded + plan.lead_count }
        (results ++ [.ok plan.path plan.campaign_name s.campaign_id s.lead_list_id
          s.lead_list_status plan.lead_count])
    | .error e =>
      if e.isAnticipated then
        runBatchLoop process rest
          { summary with failed := summary.failed + 1 }
          (results ++ [.err plan.path plan.campaign_name plan.lead_count
            e.excName e.excMessage])
      else .error e

/-- The batch run over all plans, from zeroed counters. -/
def runBatch (process : BatchFilePlan → Except PyExc BatchPlanSuccess)
    (plans : List BatchFilePlan) : Except PyExc (BatchSummary × List BatchFileResult) :=
  runBatchLoop process plans ⟨0, 0, 0, 0⟩ []

/-- The shared per-batch configuration loaded from files before any other
validation (lines 683–693). -/
structure SharedBatchConfig where
  settings : Option CampaignSettings := none
  schedule : Option CampaignSchedule := none
  sequence : Option SequenceSpec := none

/-- The validation message of the missing sender-id check (line 697). -/
def missingSenderIdsMsg : String :=
  "Missing --sender-email-id (repeatable) unless --dry-run is used."

/-- The front of `create_batch_campaigns` (lines 682–708): load the shared
config files, then — only outside dry-run — require at least one
`--sender-email-id` BEFORE the plan builder runs, then build the plans and
require at least one.  `loadShared` and `buildPlans` are thunks so that the
order of effects is the order in which they are forced. -/
def createBatchFront (dryRun : Bool) (senderEmailIds : List Int) (dirStr : String)
    (loadShared : Unit → Except WError SharedBatchConfig)
    (buildPlans : Unit → Except WError (List BatchFilePlan)) :
    Except WError (SharedBatchConfig × List BatchFilePlan) :=
  match loadShared () with
  | .error e => .error e
  | .ok cfg =>
    if ¬dryRun ∧ senderEmailIds.isEmpty then
      .error (.validation missingSenderIdsMsg)
    else
      match buildPlans () with
      | .error e => .error e
      | .ok plans =>
        if plans.isEmpty then .error (.validation ("No CSV files found in " ++ dirStr))
        else .ok (cfg, plans)

/-- Possible outcomes of the whole `create-batch` command. -/
inductive BatchCommandOutcome where
  | frontError (e : WError)
  | dryRunReport (summary : BatchSummary) (plans : List BatchFilePlan)
  | batchRun (r : Except PyExc (BatchSummary × List BatchFileResult))

/-- `create_batch_campaigns` (lines 674–848): front validation, then either
the dry-run report (built from the plans alone, with no client and no
network activity — `process` is never consulted) or the networked batch
loop. -/
def createBatchCommand (dryRun : Bool) (senderEmailIds : List Int) (dirStr : String)
    (loadShared : Unit → Except WError SharedBatchConfig)
    (buildPlans : Unit → Except WError (List BatchFilePlan))
    (process : BatchFilePlan → Except PyExc BatchPlanSuccess) : BatchCommandOutcome :=
  match createBatchFront dryRun senderEmailIds dirStr loadShared buildPlans with
  | .error e => .frontError e
  | .ok (_, plans) =>
    if dryRun then
      .dryRunReport
        ⟨plans.length, plans.length, 0, (plans.map (fun p => p.lead_count)).sum⟩ plans
    else .batchRun (runBatch process plans)

/-- Whether processing a plan succeeds (used to state the batch summary). -/
def processOk (process : BatchFilePlan → Except PyExc BatchPlanSuccess)
    (p : BatchFilePlan) : Bool :=
  match process p with
  | .ok _ => true
  | .error _ => false

/-- The per-file record the batch loop appends for one plan: a success record
with campaign/lead-list ids and status, or a failure record with the error
type name and message. -/
def batchFileRecord (process : BatchFilePlan → Except PyExc BatchPlanSuccess)
    (p : BatchFilePlan) : BatchFileResult :=
  match process p with
  | .ok s => .ok p.path p.campaign_name s.campaign_id s.lead_list_id
      s.lead_list_status p.lead_count
  | .error e => .err p.path p.campaign_name p.lead_count e.excName e.excMessage

/-!
## Theorems
-/

/-- C10: `attach_sender_emails` and `remove_sender_emails` accept integer
sender-email ids but serialise each id as its decimal string inside the
`sender_email_ids` list of the request body; attach posts, remove deletes. -/
theorem senderEmailIds_serialised_as_strings (campaignId : Int) (ids : List Int) :
    (attachSenderEmailsRequest campaignId ids).2.2.get? "sender_email_ids" =
      some (.arr (ids.map (fun x => .str (toString x)))) ∧
    (removeSenderEmailsRequest campaignId ids).2.2.get? "sender_email_ids" =
      some (.arr (ids.map (fun x => .str (toString x)))) ∧
    (attachSenderEmailsRequest campaignId ids).1 = "POST" ∧
    (removeSenderEmailsRequest campaignId ids).1 = "DELETE" := by
  refine ⟨?_, ?_, rfl, rfl⟩ <;>
    simp [attachSenderEmailsRequest, removeSenderEmailsRequest,
      attachSenderEmailsBody, removeSenderEmailsBody, JVal.get?]

/-- C6: the transport client's error mapping.  Timeouts and transport
exceptions raise a network error; 401/403 raise the authentication error; 429
raises a rate-limit `ApiError` whose message includes any `retry-after` value
and which carries the parsed body; any other status ≥ 400 raises a generic
`ApiError` with the status and parsed body; a status < 400 never raises (and,
the result being an `Except`, at most one error is produced per call). -/
theorem requestJson_error_mapping :
    (∀ ra, ∃ pre, rateLimitMsg (some ra) = pre ++ ra) ∧
    requestJson .timeoutExc = .error (.networkError "Network timeout calling EmailBison") ∧
    requestJson .transportExc = .error (.networkError "Network error calling EmailBison") ∧
    (∀ sc ra body, sc = 401 ∨ sc = 403 →
      requestJson (.response sc ra body) = .error (.authError
        "Auth failed (401/403). Set EMAILBISON_API_TOKEN or config api_token.")) ∧
    (∀ ra body, requestJson (.response 429 ra body) =
      .error (.apiError (rateLimitMsg ra) (some 429) (safeJson body))) ∧
    (∀ sc ra body, 400 ≤ sc → sc ≠ 401 → sc ≠ 403 → sc ≠ 429 →
      requestJson (.response sc ra body) =
        .error (.apiError ("API error (" ++ toString sc ++ ").") (some sc) (safeJson body))) ∧
    (∀ sc ra body, sc < 400 → requestJson (.response sc ra body) = .ok (safeJson body)) := by
  refine ⟨?_, rfl, rfl, ?_, ?_, ?_, ?_⟩
  · intro ra
    exact ⟨"Rate limited (429)." ++ " Retry-After: ", rfl⟩
  · rintro sc ra body (rfl | rfl) <;> rfl
  · intro ra body
    rfl
  · intro sc ra body h400 h401 h403 h429
    simp only [requestJson, raiseForStatus]
    rw [if_neg (by omega), if_neg (by omega), if_pos (by omega)]
  · intro sc ra body hlt
    simp only [requestJson, raiseForStatus]
    rw [if_neg (by omega), if_neg (by omega), if_neg (by omega)]

/-- Witness for C6 at concrete calls: one per branch of the mapping. -/
theorem requestJson_error_mapping_witness :
    requestJson (.response 403 none (.jsonVal (.obj []))) = .error (.authError
      "Auth failed (401/403). Set EMAILBISON_API_TOKEN or config api_token.") ∧
    requestJson (.response 429 (some "10") (.jsonVal (.obj []))) =
      .error (.apiError (rateLimitMsg (some "10")) (some 429) (.obj [])) ∧
    requestJson (.response 500 none (.jsonVal (.obj []))) =
      .error (.apiError ("API error (" ++ toString 500 ++ ").") (some 500) (.obj [])) ∧
    requestJson (.response 200 none (.jsonVal (.obj []))) = .ok (.obj []) :=
  ⟨requestJson_error_mapping.2.2.2.1 403 none _ (Or.inr rfl),
   requestJson_error_mapping.2.2.2.2.1 (some "10") _,
   requestJson_error_mapping.2.2.2.2.2.1 500 none _ (by omega) (by omega) (by omega) (by omega),
   requestJson_error_mapping.2.2.2.2.2.2 200 none _ (by omega)⟩

/-- C5: the lead-list lookup tries the primary path first, falls back to the
secondary path exactly on a 404 `ApiError`, aborts immediately on any other
first-attempt error, and composes the "no supported endpoint" error — carrying
the last-seen status and details — when both attempts yield 404. -/
theorem getLeadList_fallback (fetch : String → Except EBError JVal) (llid : Int) :
    (∀ v, fetch ("/api/leads/lists/" ++ toString llid) = .ok v →
      getLeadList fetch llid = (.ok v, ["/api/leads/lists/" ++ toString llid])) ∧
    (∀ m st d, fetch ("/api/leads/lists/" ++ toString llid) = .error (.apiError m st d) →
      st ≠ some 404 →
      getLeadList fetch llid =
        (.error (.apiError m st d), ["/api/leads/lists/" ++ toString llid])) ∧
    (∀ m, fetch ("/api/leads/lists/" ++ toString llid) = .error (.authError m) →
      getLeadList fetch llid = (.error (.authError m), ["/api/leads/lists/" ++ toString llid])) ∧
    (∀ m, fetch ("/api/leads/lists/" ++ toString llid) = .error (.networkError m) →
      getLeadList fetch llid =
        (.error (.networkError m), ["/api/leads/lists/" ++ toString llid])) ∧
    (∀ m d, fetch ("/api/leads/lists/" ++ toString llid) = .error (.apiError m (some 404) d) →
      (getLeadList fetch llid).2 =
        ["/api/leads/lists/" ++ toString llid, "/api/lead-lists/" ++ toString llid] ∧
      (∀ v, fetch ("/api/lead-lists/" ++ toString llid) = .ok v →
        (getLeadList fetch llid).1 = .ok v) ∧
      (∀ m2 d2, fetch ("/api/lead-lists/" ++ toString llid) =
          .error (.apiError m2 (some 404) d2) →
        (getLeadList fetch llid).1 = .error (.apiError
          ("Unable to fetch lead list " ++ toString llid ++ "; no supported endpoint found.")
          (some 404) d2)) ∧
      (∀ m2 st2 d2, fetch ("/api/lead-lists/" ++ toString llid) =
          .error (.apiError m2 st2 d2) → st2 ≠ some 404 →
        (getLeadList fetch llid).1 = .error (.apiError m2 st2 d2)) ∧
      (∀ m2, fetch ("/api/lead-lists/" ++ toString llid) = .error (.authError m2) →
        (getLeadList fetch llid).1 = .error (.authError m2)) ∧
      (∀ m2, fetch ("/api/lead-lists/" ++ toString llid) = .error (.networkError m2) →
        (getLeadList fetch llid).1 = .error (.networkError m2))) := by
  refine ⟨?_, ?_, ?_, ?_, ?_⟩
  · intro v h
    simp [getLeadList, leadListCandidatePaths, getLeadListGo, h]
  · intro m st d h hne
    simp [getLeadList, leadListCandidatePaths, getLeadListGo, h, hne]
  · intro m h
    simp [getLeadList, leadListCandidatePaths, getLeadListGo, h]
  · intro m h
    simp [getLeadList, leadListCandidatePaths, getLeadListGo, h]
  · intro m d h
    refine ⟨?_, ?_, ?_, ?_, ?_, ?_⟩
    · cases h2 : fetch ("/api/lead-lists/" ++ toString llid) with
      | ok v => simp [getLeadList, leadListCandidatePaths, getLeadListGo, h, h2]
      | error e =>
        cases e <;>
          simp [getLeadList, leadListCandidatePaths, getLeadListGo, h, h2] <;>
          split <;> simp
    · intro v h2
      simp [getLeadList, leadListCandidatePaths, getLeadListGo, h, h2]
    · intro m2 d2 h2
      simp [getLeadList, leadListCandidatePaths, getLeadListGo, h, h2,
        lastErrorStatus, lastErrorDetails]
    · intro m2 st2 d2 h2 hne
      simp [getLeadList, leadListCandidatePaths, getLeadListGo, h, h2, hne]
    · intro m2 h2
      simp [getLeadList, leadListCandidatePaths, getLeadListGo, h, h2]
    · intro m2 h2
      simp [getLeadList, leadListCandidatePaths, getLeadListGo, h, h2]

/-- Witness for C5: a fetch oracle whose primary path 404s and whose secondary
path succeeds, plus one where both 404. -/
theorem getLeadList_fallback_witness :
    getLeadList
        (fun p => if p = "/api/leads/lists/" ++ toString (7 : Int) then
          .error (.apiError "API error (404)." (some 404) .null)
         else .ok (.obj [("data", .obj [("id", .int 7)])])) 7 =
      (.ok (.obj [("data", .obj [("id", .int 7)])]),
        ["/api/leads/lists/" ++ toString (7 : Int), "/api/lead-lists/" ++ toString (7 : Int)]) ∧
    (getLeadList (fun _ => .error (.apiError "API error (404)." (some 404) .null)) 7).1 =
      .error (.apiError
        ("Unable to fetch lead list " ++ toString (7 : Int) ++ "; no supported endpoint found.")
        (some 404) .null) := by
  constructor
  · have h := (getLeadList_fallback
      (fun p => if p = "/api/leads/lists/" ++ toString (7 : Int) then
        .error (.apiError "API error (404)." (some 404) .null)
       else .ok (.obj [("data", .obj [("id", .int 7)])])) 7).2.2.2.2
      "API error (404)." .null rfl
    have h2 := h.2.1 (.obj [("data", .obj [("id", .int 7)])]) rfl
    have h1 := h.1
    exact Prod.ext h2 h1
  · exact ((getLeadList_fallback (fun _ => .error (.apiError "API error (404)." (some 404) .null))
      7).2.2.2.2 "API error (404)." .null rfl).2.2.1 "API error (404)." .null rfl

/-- C1: a valid `CampaignCreateSpec` carrying only a name and a type (no
settings, schedule, sequence, leads, explicit sender ids or selector) and not
requesting start drives the workflow through exactly one remote call — the
campaign-creation POST — and yields a successful result whose id is the id
extracted from the creation response. -/
theorem minimalSpec_workflow_single_call (spec : CampaignCreateSpec) (api : ApiOracle)
    (createdRaw : JVal) (cid : Int)
    (hval : spec.valid)
    (hset : spec.settings = none) (hsch : spec.schedule = none)
    (hseq : spec.sequence = none) (hids : spec.sender_email_ids = none)
    (hsel : spec.sender_emails = none) (hleads : spec.leads = none)
    (hstart : spec.start = false)
    (hapi : api (.createCampaign spec.name spec.type) = .ok createdRaw)
    (hid : extractId createdRaw = some cid) :
    runCreateCampaignWorkflow api spec false =
      (.ok { id := cid, name := spec.name, status := extractStatus createdRaw,
             raw := createdRaw },
        [ApiCall.createCampaign spec.name spec.type]) ∧
    (ApiCall.createCampaign spec.name spec.type).httpMethod = "POST" := by
  obtain ⟨nm, ty, st, sc, sq, ids, sel, lds, sf⟩ := spec
  simp only at hset hsch hseq hids hsel hleads hstart
  subst hset hsch hseq hids hsel hleads hstart
  refine ⟨?_, rfl⟩
  simp only [runCreateCampaignWorkflow, hapi, hid, stageSettings, stageSchedule,
    stageSequence, stageSenders, stageAttachSenders, stageLeads, stageStart,
    finishResult, Bool.false_eq_true, if_false]

/-- Witness for C1: a concrete one-call run. -/
theorem minimalSpec_workflow_single_call_witness :
    runCreateCampaignWorkflow
        (fun _ => .ok (.obj [("data", .obj [("id", .int 7), ("status", .str "draft")])]))
        { name := "Campaign A" } false =
      (.ok { id := 7, name := "Campaign A", status := some "draft",
             raw := .obj [("data", .obj [("id", .int 7), ("status", .str "draft")])] },
        [ApiCall.createCampaign "Campaign A" "outbound"]) :=
  (minimalSpec_workflow_single_call { name := "Campaign A" }
    (fun _ => .ok (.obj [("data", .obj [("id", .int 7), ("status", .str "draft")])]))
    (.obj [("data", .obj [("id", .int 7), ("status", .str "draft")])]) 7
    ⟨by decide, Or.inl rfl, by simp, by simp, by simp, by simp⟩
    rfl rfl rfl rfl rfl rfl rfl rfl rfl).1

/-- A row whose stringified status matches the filter is kept as in the
unfiltered case. -/
theorem senderRowId_of_status_match (st : String) (row : JVal)
    (h : (pyStrOpt (row.get? "status") == st) = true) :
    senderRowId (some st) row = senderRowId none row := by
  have heq : pyStrOpt (row.get? "status") = st := by simpa using h
  cases row <;> simp [senderRowId]
  case obj fields =>
    cases hid : (JVal.obj fields).get? "id" with
    | none => rfl
    | some v => cases v <;> simp [hid, heq]

/-- A row whose stringified status does not match the filter is dropped. -/
theorem senderRowId_of_status_mismatch (st : String) (row : JVal)
    (h : (pyStrOpt (row.get? "status") == st) = false) :
    senderRowId (some st) row = none := by
  have hne : ¬pyStrOpt (row.get? "status") = st := by simpa using h
  cases row <;> simp [senderRowId]
  case obj fields =>
    cases hid : (JVal.obj fields).get? "id" with
    | none => rfl
    | some v => cases v <;> simp [hid, hne]

/-- The client-side status filter commutes with candidate extraction: the
candidates under a status filter are the candidates of the rows whose
`str(row.get("status"))` equals the filter string exactly. -/
theorem senderCandidateIds_status_filter (st : String) (rows : List JVal) :
    senderCandidateIds (some st) (.obj [("data", .arr rows)]) =
      senderCandidateIds none
        (.obj [("data", .arr (rows.filter (fun r => pyStrOpt (r.get? "status") == st)))]) := by
  have key : ∀ rs : List JVal,
      rs.filterMap (senderRowId (some st)) =
        (rs.filter (fun r => pyStrOpt (r.get? "status") == st)).filterMap (senderRowId none) := by
    intro rs
    induction rs with
    | nil => rfl
    | cons r rest ih =>
      by_cases h : (pyStrOpt (r.get? "status") == st) = true
      · have hm := senderRowId_of_status_match st r h
        simp [List.filterMap_cons, List.filter_cons, h, hm, ih]
      · have hm := senderRowId_of_status_mismatch st r (by simpa using h)
        simp [List.filterMap_cons, List.filter_cons, h, hm, ih]
  simpa [senderCandidateIds, JVal.get?] using key rows

/-- C2: sender-selector resolution.  (1) Concretely, candidates with ids
[5, 2, 9, 1] and limit 2 resolve to [1, 2].  (2)–(4) In general the resolved
list is sorted ascending, no longer than the limit, and drawn from the
filtered candidates; (5) the status filter keeps exactly the rows whose
stringified status equals the filter (see
`senderCandidateIds_status_filter`).  (6) In the orchestrator, an empty
resolution fails with the selector validation error — a `WError.validation`,
a different constructor from `WError.transport` — right after the list call,
and a non-empty resolution is attached verbatim and reported in the result.
-/
theorem senderSelector_resolution (sel : SenderEmailSelector) (rawSender : JVal) :
    resolveSenderIds { limit := 2 }
        (.obj [("data", .arr [.obj [("id", .int 5)], .obj [("id", .int 2)],
          .obj [("id", .int 9)], .obj [("id", .int 1)]])]) = [1, 2] ∧
    List.Sorted (· ≤ ·) (resolveSenderIds sel rawSender) ∧
    (resolveSenderIds sel rawSender).length ≤ sel.limit ∧
    (∀ x, x ∈ resolveSenderIds sel rawSender → x ∈ senderCandidateIds sel.status rawSender) ∧
    (∀ m e, WError.validation m ≠ WError.transport e) ∧
    (∀ (api : ApiOracle) (spec : CampaignCreateSpec) (forceStart : Bool) (cid : Int)
        (createdRaw : JVal) (seqId : Option Int) (stepIds : Option (List Int))
        (trace : List ApiCall),
      spec.sender_email_ids = none → spec.sender_emails = some sel →
      api (.listSenderEmails sel.search sel.tag_ids sel.excluded_tag_ids sel.without_tags) =
        .ok rawSender →
      resolveSenderIds sel rawSender = [] →
      stageSenders api spec forceStart cid createdRaw seqId stepIds trace =
        (.error (.validation senderSelectorEmptyMsg),
          trace ++ [.listSenderEmails sel.search sel.tag_ids sel.excluded_tag_ids
            sel.without_tags])) ∧
    (∀ (nm ty : String) (api : ApiOracle) (createdRaw attachRaw : JVal) (cid : Int),
      api (.createCampaign nm ty) = .ok createdRaw →
      extractId createdRaw = some cid →
      api (.listSenderEmails sel.search sel.tag_ids sel.excluded_tag_ids sel.without_tags) =
        .ok rawSender →
      resolveSenderIds sel rawSender ≠ [] →
      api (.attachSenderEmails cid (resolveSenderIds sel rawSender)) = .ok attachRaw →
      runCreateCampaignWorkflow api
          ⟨nm, ty, none, none, none, none, some sel, none, false⟩ false =
        (.ok { id := cid, name := nm, status := extractStatus createdRaw,
               sender_email_ids := some (resolveSenderIds sel rawSender),
               raw := createdRaw },
          [.createCampaign nm ty,
           .listSenderEmails sel.search sel.tag_ids sel.excluded_tag_ids sel.without_tags,
           .attachSenderEmails cid (resolveSenderIds sel rawSender)])) := by
  refine ⟨rfl, ?_, ?_, ?_, ?_, ?_, ?_⟩
  · exact List.Pairwise.sublist (List.take_sublist _ _)
      (List.sorted_insertionSort (r := fun a b : Int => a ≤ b) _)
  · simp only [resolveSenderIds]
    exact le_trans (le_of_eq (List.length_take _ _)) (Nat.min_le_left _ _)
  · intro x hx
    have h1 : x ∈ List.insertionSort (fun a b : Int => a ≤ b)
        (senderCandidateIds sel.status rawSender) := List.take_subset _ _ hx
    exact (List.mem_insertionSort _).1 h1
  · intro m e h
    exact WError.noConfusion h
  · intro api spec forceStart cid createdRaw seqId stepIds trace hids hsel hlist hempty
    obtain ⟨nm, ty, st, sc, sq, ids, selF, lds, sf⟩ := spec
    simp only at hids hsel
    subst hids hsel
    simp only [stageSenders, hlist, hempty, List.isEmpty_nil, if_true]
  · intro nm ty api createdRaw attachRaw cid hapi hid hlist hne hattach
    have hEmpty : (resolveSenderIds sel rawSender).isEmpty = false := by
      cases h : resolveSenderIds sel rawSender with
      | nil => exact absurd h hne
      | cons a l => rfl
    simp only [runCreateCampaignWorkflow, hapi, hid, stageSettings, stageSchedule,
      stageSequence, stageSenders, hlist, hEmpty, Bool.false_eq_true, if_false,
      stageAttachSenders, stageLeads, stageStart, finishResult, List.cons_append,
      List.nil_append, hattach]

/-- Witness for C2: a concrete oracle exercising both the non-empty
resolution (ids [5, 2, 9, 1], limit 2 → attach [1, 2]) and the empty
resolution (validation error). -/
theorem senderSelector_resolution_witness :
    runCreateCampaignWorkflow
        (fun c =>
          match c with
          | .createCampaign _ _ => .ok (.obj [("data", .obj [("id", .int 7)])])
          | .listSenderEmails _ _ _ _ => .ok (.obj [("data", .arr
              [.obj [("id", .int 5)], .obj [("id", .int 2)],
               .obj [("id", .int 9)], .obj [("id", .int 1)]])])
          | _ => .ok (.obj []))
        ⟨"District A", "outbound", none, none, none, none, some { limit := 2 }, none, false⟩
        false =
      (.ok { id := 7, name := "District A", status := none,
             sender_email_ids := some [1, 2],
             raw := .obj [("data", .obj [("id", .int 7)])] },
        [.createCampaign "District A" "outbound",
         .listSenderEmails none none none none,
         .attachSenderEmails 7 [1, 2]]) ∧
    stageSenders
        (fun c =>
          match c with
          | .listSenderEmails _ _ _ _ => .ok (.obj [("data", .arr [])])
          | _ => .ok (.obj []))
        ⟨"District B", "outbound", none, none, none, none, some { limit := 2 }, none, false⟩
        false 7 (.obj []) none none [] =
      (.error (.validation senderSelectorEmptyMsg), [.listSenderEmails none none none none]) := by
  constructor
  · exact (senderSelector_resolution { limit := 2 }
      (.obj [("data", .arr [.obj [("id", .int 5)], .obj [("id", .int 2)],
        .obj [("id", .int 9)], .obj [("id", .int 1)]])])).2.2.2.2.2.2
      "District A" "outbound"
      (fun c =>
        match c with
        | .createCampaign _ _ => .ok (.obj [("data", .obj [("id", .int 7)])])
        | .listSenderEmails _ _ _ _ => .ok (.obj [("data", .arr
            [.obj [("id", .int 5)], .obj [("id", .int 2)],
             .obj [("id", .int 9)], .obj [("id", .int 1)]])])
        | _ => .ok (.obj []))
      (.obj [("data", .obj [("id", .int 7)])]) (.obj []) 7 rfl rfl rfl (by decide) rfl
  · exact (senderSelector_resolution { limit := 2 }
      (.obj [("data", .arr [])])).2.2.2.2.2.1
      (fun c =>
        match c with
        | .listSenderEmails _ _ _ _ => .ok (.obj [("data", .arr [])])
        | _ => .ok (.obj []))
      ⟨"District B", "outbound", none, none, none, none, some { limit := 2 }, none, false⟩
      false 7 (.obj []) none none [] rfl rfl rfl rfl

/-- C8: the start preflight.  Concretely, a campaign with `total_leads = 0`,
one attached sender email and zero sequence steps yields exactly the two
missing conditions "no leads attached" and "no sequence steps" (all three
checks run; nothing short-circuits).  In general, whenever the
missing-conditions list is non-empty and force-start was not requested, the
workflow aborts with a validation error listing every missing condition, the
trace ends at the three preflight fetches and the resume call is never
issued. -/
theorem startPreflight_missing_conditions :
    preflightMissing
        (.obj [("data", .obj [("total_leads", .int 0)])])
        (.obj [("data", .arr [.obj [("id", .int 11)]])])
        (.obj [("data", .obj [("sequence_steps", .arr [])])]) =
      ["no leads attached", "no sequence steps"] ∧
    (∀ (nm ty : String) (api : ApiOracle) (createdRaw d s q : JVal) (cid : Int),
      api (.createCampaign nm ty) = .ok createdRaw →
      extractId createdRaw = some cid →
      api (.campaignDetails cid) = .ok d →
      api (.getCampaignSenderEmails cid) = .ok s →
      api (.getSequenceStepsV11 cid) = .ok q →
      preflightMissing d s q ≠ [] →
      runCreateCampaignWorkflow api
          ⟨nm, ty, none, none, none, none, none, none, true⟩ false =
        (.error (.validation ("Refusing to start campaign (preflight failed): " ++
            String.intercalate ", " (preflightMissing d s q))),
          [.createCampaign nm ty, .campaignDetails cid, .getCampaignSenderEmails cid,
           .getSequenceStepsV11 cid]) ∧
      ApiCall.resumeCampaign cid ∉
        (runCreateCampaignWorkflow api
          ⟨nm, ty, none, none, none, none, none, none, true⟩ false).2) := by
  refine ⟨rfl, ?_⟩
  intro nm ty api createdRaw d s q cid hapi hid hd hs hq hne
  have hEmpty : (preflightMissing d s q).isEmpty = false := by
    cases h : preflightMissing d s q with
    | nil => exact absurd h hne
    | cons a l => rfl
  have hrun : runCreateCampaignWorkflow api
      ⟨nm, ty, none, none, none, none, none, none, true⟩ false =
      (.error (.validation ("Refusing to start campaign (preflight failed): " ++
          String.intercalate ", " (preflightMissing d s q))),
        [.createCampaign nm ty, .campaignDetails cid, .getCampaignSenderEmails cid,
         .getSequenceStepsV11 cid]) := by
    simp [runCreateCampaignWorkflow, hapi, hid, stageSettings, stageSchedule,
      stageSequence, stageSenders, stageAttachSenders, stageLeads, stageStart,
      hd, hs, hq, hEmpty]
  refine ⟨hrun, ?_⟩
  rw [hrun]
  simp

/-- Witness for C8: the concrete zero-leads / one-sender / zero-steps
campaign is refused without a resume call. -/
theorem startPreflight_missing_conditions_witness :
    runCreateCampaignWorkflow
        (fun c =>
          match c with
          | .createCampaign _ _ => .ok (.obj [("data", .obj [("id", .int 7)])])
          | .campaignDetails _ => .ok (.obj [("data", .obj [("total_leads", .int 0)])])
          | .getCampaignSenderEmails _ => .ok (.obj [("data", .arr [.obj [("id", .int 11)]])])
          | .getSequenceStepsV11 _ => .ok (.obj [("data", .obj [("sequence_steps", .arr [])])])
          | _ => .ok (.obj []))
        ⟨"District A", "outbound", none, none, none, none, none, none, true⟩ false =
      (.error (.validation ("Refusing to start campaign (preflight failed): " ++
          String.intercalate ", " ["no leads attached", "no sequence steps"])),
        [.createCampaign "District A" "outbound", .campaignDetails 7,
         .getCampaignSenderEmails 7, .getSequenceStepsV11 7]) :=
  ((startPreflight_missing_conditions.2 "District A" "outbound"
    (fun c =>
      match c with
      | .createCampaign _ _ => .ok (.obj [("data", .obj [("id", .int 7)])])
      | .campaignDetails _ => .ok (.obj [("data", .obj [("total_leads", .int 0)])])
      | .getCampaignSenderEmails _ => .ok (.obj [("data", .arr [.obj [("id", .int 11)]])])
      | .getSequenceStepsV11 _ => .ok (.obj [("data", .obj [("sequence_steps", .arr [])])])
      | _ => .ok (.obj []))
    (.obj [("data", .obj [("id", .int 7)])])
    (.obj [("data", .obj [("total_leads", .int 0)])])
    (.obj [("data", .arr [.obj [("id", .int 11)]])])
    (.obj [("data", .obj [("sequence_steps", .arr [])])])
    7 rfl rfl rfl rfl rfl (by decide)).1)

/-- Running the polling loop past `j` pending attempts advances the poll
index by `j` and consumes `j` units of budget. -/
theorem leadListPollLoop_reach (polls : Nat → Except EBError JVal) (llid : Int) :
    ∀ (j k b : Nat), j ≤ b → (∀ i, i < j → pollAttemptPending polls (k + i)) →
      leadListPollLoop polls llid k b = leadListPollLoop polls llid (k + j) (b - j) := by
  intro j
  induction j with
  | zero => intro k b _ _; simp
  | succ j ih =>
    intro k b hjb hpend
    obtain ⟨b', rfl⟩ : ∃ b', b = b' + 1 := ⟨b - 1, by omega⟩
    obtain ⟨raw, hraw, hcase⟩ := hpend 0 (by omega)
    have hstep : leadListPollLoop polls llid k (b' + 1) =
        leadListPollLoop polls llid (k + 1) b' := by
      rw [show k + 0 = k by omega] at hraw
      rcases hcase with hnone | ⟨st, hst, hfail, hpending⟩
      · simp only [leadListPollLoop, hraw, hnone]
      · simp only [leadListPollLoop, hraw, hst, hfail, hpending]
        simp
    rw [hstep, ih (k + 1) b' (by omega)
      (fun i hi => by have := hpend (i + 1) (by omega); rwa [show k + (i + 1) = k + 1 + i by omega] at this),
      show k + 1 + j = k + (j + 1) by omega, show b' - j = b' + 1 - (j + 1) by omega]

/-- A full budget of pending attempts ends in the timeout error. -/
theorem leadListPollLoop_timeout (polls : Nat → Except EBError JVal) (llid : Int)
    (b : Nat) (hpend : ∀ i, i < b → pollAttemptPending polls i) :
    leadListPollLoop polls llid 0 b = .error (.validation (leadListTimeoutMsg llid)) := by
  rw [leadListPollLoop_reach polls llid b 0 b (le_refl b)
    (fun i hi => by simpa using hpend i hi)]
  simp [leadListPollLoop]

/-- The first terminal attempt decides the loop: after `j` pending attempts,
an attempt whose status is outside the pending set returns that status, or
fails when the status is a failed one. -/
theorem leadListPollLoop_first_terminal (polls : Nat → Except EBError JVal) (llid : Int)
    (j b : Nat) (raw : JVal) (st : String) (hjb : j < b)
    (hpend : ∀ i, i < j → pollAttemptPending polls i)
    (hraw : polls j = .ok raw) (hst : extractLeadListStatus raw = some st) :
    (pyNorm st ∉ leadListFailedStatuses → pyNorm st ∉ leadListPendingStatuses →
      leadListPollLoop polls llid 0 b = .ok st) ∧
    (pyNorm st ∈ leadListFailedStatuses →
      leadListPollLoop polls llid 0 b =
        .error (.validation (leadListFailedMsg llid st))) := by
  have hreach : leadListPollLoop polls llid 0 b = leadListPollLoop polls llid j (b - j) := by
    rw [leadListPollLoop_reach polls llid j 0 b (by omega)
      (fun i hi => by simpa using hpend i hi)]
    simp
  obtain ⟨m, hm⟩ : ∃ m, b - j = m + 1 := ⟨b - j - 1, by omega⟩
  constructor
  · intro hfail hpending
    rw [hreach, hm]
    simp only [leadListPollLoop, hraw, hst, hfail, hpending]
    simp
  · intro hfail
    rw [hreach, hm]
    simp only [leadListPollLoop, hraw, hst, hfail]
    simp

/-- C3 (amended): classification of the lead-list polling loop.  The interval
is 2 seconds and the budget 300 seconds, i.e. 151 zero-latency attempts.  A
non-empty initial status that normalises into the failed set fails
immediately; a non-empty initial status outside both sets is returned
immediately; a missing, empty, or pending initial status enters the polling
loop.  There, a full budget of pending attempts (a missing/unreadable status
counts as pending and keeps the loop going) ends in the distinct timeout
error, and the first non-pending attempt decides the run: its status is
returned unless it normalises into the failed set, which fails with the
polled-failure error. -/
theorem leadListPolling_classification (llid : Int)
    (polls : Nat → Except EBError JVal) :
    leadListPollIntervalSeconds = 2 ∧ leadListPollTimeoutSeconds = 300 ∧
    leadListPollBudget = 151 ∧
    (∀ s, s ≠ "" → pyNorm s ∈ leadListFailedStatuses →
      waitForLeadListProcessing llid (some s) polls =
        .error (.validation (leadListFailedImmediatelyMsg llid s))) ∧
    (∀ s, s ≠ "" → pyNorm s ∉ leadListFailedStatuses →
      pyNorm s ∉ leadListPendingStatuses →
      waitForLeadListProcessing llid (some s) polls = .ok s) ∧
    (∀ initialStatus, (initialStatus = none ∨ initialStatus = some "" ∨
        (∃ s, initialStatus = some s ∧
          pyNorm s ∉ leadListFailedStatuses ∧
          pyNorm s ∈ leadListPendingStatuses)) →
      waitForLeadListProcessing llid initialStatus polls =
        leadListPollLoop polls llid 0 leadListPollBudget) ∧
    ((∀ i, i < leadListPollBudget → pollAttemptPending polls i) →
      leadListPollLoop polls llid 0 leadListPollBudget =
        .error (.validation (leadListTimeoutMsg llid))) ∧
    (∀ j raw st, j < leadListPollBudget → (∀ i, i < j → pollAttemptPending polls i) →
      polls j = .ok raw → extractLeadListStatus raw = some st →
      (pyNorm st ∉ leadListFailedStatuses → pyNorm st ∉ leadListPendingStatuses →
        leadListPollLoop polls llid 0 leadListPollBudget = .ok st) ∧
      (pyNorm st ∈ leadListFailedStatuses →
        leadListPollLoop polls llid 0 leadListPollBudget =
          .error (.validation (leadListFailedMsg llid st)))) ∧
    leadListTimeoutMsg 7 ≠ leadListFailedMsg 7 "failed" := by
  refine ⟨rfl, rfl, rfl, ?_, ?_, ?_, ?_, ?_, by decide⟩
  · intro s hs hfail
    simp only [waitForLeadListProcessing]
    rw [if_pos ⟨hs, hfail⟩]
  · intro s hs hfail hpending
    simp only [waitForLeadListProcessing]
    rw [if_neg (fun h => hfail h.2), if_pos ⟨hs, hpending⟩]
  · rintro _ (rfl | rfl | ⟨s, rfl, hfail, hpending⟩)
    · rfl
    · rfl
    · simp only [waitForLeadListProcessing]
      rw [if_neg (fun h => hfail h.2), if_neg (fun h => h.2 hpending)]
  · exact leadListPollLoop_timeout polls llid leadListPollBudget
  · intro j raw st hj hpend hraw hst
    exact leadListPollLoop_first_terminal polls llid j leadListPollBudget raw st hj
      hpend hraw hst

set_option maxRecDepth 40000 in
/-- C3 counterexample: the claim states the loop "returns the initial status
immediately if it lies outside the pending set"; the empty string lies
outside both the pending and the failed set, yet the code's truthiness guard
(`if status and …`) sends it into the polling loop — here, with every poll
pending, all the way to the timeout error instead of returning `""`. -/
theorem leadListPolling_empty_initial_counterexample :
    "" ∉ leadListPendingStatuses ∧
    "" ∉ leadListFailedStatuses ∧
    waitForLeadListProcessing 7 (some "")
        (fun _ => .ok (.obj [("data", .obj [("status", .str "Processing")])])) =
      .error (.validation (leadListTimeoutMsg 7)) ∧
    waitForLeadListProcessing 7 (some "")
        (fun _ => .ok (.obj [("data", .obj [("status", .str "Processing")])])) ≠
      .ok "" := by
  refine ⟨by decide, by decide, rfl, ?_⟩
  intro h
  rw [show waitForLeadListProcessing 7 (some "")
      (fun _ => .ok (.obj [("data", .obj [("status", .str "Processing")])])) =
      .error (.validation (leadListTimeoutMsg 7)) from rfl] at h
  simp at h

/-- Witness for C3: a non-empty terminal initial status returns immediately;
an initially pending list whose second poll is terminal returns the polled
status; a failed initial status fails immediately. -/
theorem leadListPolling_classification_witness :
    waitForLeadListProcessing 7 (some "Done")
        (fun _ => .ok (.obj [("data", .obj [("status", .str "Processing")])])) = .ok "Done" ∧
    waitForLeadListProcessing 7 (some "Unprocessed")
        (fun i => if i = 0 then .ok (.obj [("data", .obj [("status", .str "Processing")])])
          else .ok (.obj [("data", .obj [("status", .str "Processed")])])) = .ok "Processed" ∧
    waitForLeadListProcessing 7 (some "FAILED")
        (fun _ => .ok (.obj [("data", .obj [("status", .str "Processing")])])) =
      .error (.validation (leadListFailedImmediatelyMsg 7 "FAILED")) := by
  refine ⟨?_, ?_, ?_⟩
  · exact (leadListPolling_classification 7
      (fun _ => .ok (.obj [("data", .obj [("status", .str "Processing")])]))).2.2.2.2.1
      "Done" (by decide) (by decide) (by decide)
  · have hclass := leadListPolling_classification 7
      (fun i => if i = 0 then .ok (.obj [("data", .obj [("status", .str "Processing")])])
        else .ok (.obj [("data", .obj [("status", .str "Processed")])]))
    rw [hclass.2.2.2.2.2.1 (some "Unprocessed")
      (Or.inr (Or.inr ⟨"Unprocessed", rfl, by decide, by decide⟩))]
    refine (hclass.2.2.2.2.2.2.2.1 1
      (.obj [("data", .obj [("status", .str "Processed")])]) "Processed" (by decide)
      (fun i hi => ?_) rfl rfl).1 (by decide) (by decide)
    interval_cases i
    exact ⟨.obj [("data", .obj [("status", .str "Processing")])], rfl,
      Or.inr ⟨"Processing", rfl, by decide, by decide⟩⟩
  · exact (leadListPolling_classification 7
      (fun _ => .ok (.obj [("data", .obj [("status", .str "Processing")])]))).2.2.2.1
      "FAILED" (by decide) (by decide)

/-- The batch loop, started from any state, completes over plans whose
failures are all of the anticipated kinds, adding one record per plan and
accumulating the counters. -/
theorem runBatchLoop_isolated (process : BatchFilePlan → Except PyExc BatchPlanSuccess) :
    ∀ (plans : List BatchFilePlan) (summary : BatchSummary) (results : List BatchFileResult),
      (∀ p ∈ plans, processOk process p = true ∨
        ∃ e, process p = .error e ∧ e.isAnticipated = true) →
      runBatchLoop process plans summary results =
        .ok ({ total_processed := summary.total_processed + plans.length,
               succeeded := summary.succeeded + (plans.filter (processOk process)).length,
               failed := summary.failed +
                 (plans.filter (fun p => !processOk process p)).length,
               leads_loaded := summary.leads_loaded +
                 ((plans.filter (processOk process)).map (fun p => p.lead_count)).sum },
          results ++ plans.map (batchFileRecord process)) := by
  intro plans
  induction plans with
  | nil => intro summary results _; simp [runBatchLoop]
  | cons p rest ih =>
    intro summary results h
    cases hps : process p with
    | ok s =>
      have hpo : processOk process p = true := by simp [processOk, hps]
      simp only [runBatchLoop, hps]
      rw [ih _ _ (fun q hq => h q (List.mem_cons_of_mem p hq))]
      simp only [List.filter_cons, List.map_cons, List.length_cons, List.sum_cons,
        hpo, batchFileRecord, hps, Bool.not_true, cond_true, cond_false]
      simp [List.append_assoc]
      constructor
      · omega
      · constructor
        · omega
        · omega
    | error e =>
      have hant : e.isAnticipated = true := by
        rcases h p (List.mem_cons_self p rest) with hpo | ⟨e', he', hant'⟩
        · simp [processOk, hps] at hpo
        · rw [hps] at he'
          cases he'
          exact hant'
      have hpo : processOk process p = false := by simp [processOk, hps]
      simp only [runBatchLoop, hps, hant, if_true]
      rw [ih _ _ (fun q hq => h q (List.mem_cons_of_mem p hq))]
      simp only [List.filter_cons, List.map_cons, List.length_cons, List.sum_cons,
        hpo, batchFileRecord, hps, Bool.not_false, cond_true, cond_false]
      simp [List.append_assoc]
      constructor
      · omega
      · omega

/-- An unanticipated error inside the batch loop propagates past any prefix
of isolated plans. -/
theorem runBatchLoop_propagates (process : BatchFilePlan → Except PyExc BatchPlanSuccess)
    (p : BatchFilePlan) (post : List BatchFilePlan) (e : PyExc)
    (hp : process p = .error e) (hant : e.isAnticipated = false) :
    ∀ (pre : List BatchFilePlan) (summary : BatchSummary) (results : List BatchFileResult),
      (∀ q ∈ pre, processOk process q = true ∨
        ∃ e', process q = .error e' ∧ e'.isAnticipated = true) →
      runBatchLoop process (pre ++ p :: post) summary results = .error e := by
  intro pre
  induction pre with
  | nil =>
    intro summary results _
    simp [runBatchLoop, hp, hant]
  | cons q rest ih =>
    intro summary results h
    cases hq : process q with
    | ok s =>
      simp only [List.cons_append, runBatchLoop, hq]
      exact ih _ _ (fun r hr => h r (List.mem_cons_of_mem q hr))
    | error e' =>
      have hant' : e'.isAnticipated = true := by
        rcases h q (List.mem_cons_self q rest) with hpo | ⟨e'', he'', hant''⟩
        · simp [processOk, hq] at hpo
        · rw [hq] at he''
          cases he''
          exact hant''
      simp only [List.cons_append, runBatchLoop, hq, hant', if_true]
      exact ih _ _ (fun r hr => h r (List.mem_cons_of_mem q hr))

/-- C4: batch failure isolation and aggregation.  When every failure during a
run is one of the anticipated kinds (`ApiError`, `AuthError`, `NetworkError`,
`ValueError`, `WorkflowValidationError`), the run completes with
`total_processed` equal to the number of files, `succeeded`/`failed` counting
the outcomes, `leads_loaded` summing lead counts over succeeded plans only,
and exactly one record per file — failures carrying the error type name and
message (`batchFileRecord`).  An error of any other type propagates and
aborts the batch. -/
theorem batch_failure_isolation (process : BatchFilePlan → Except PyExc BatchPlanSuccess)
    (plans : List BatchFilePlan) :
    ((∀ p ∈ plans, processOk process p = true ∨
        ∃ e, process p = .error e ∧ e.isAnticipated = true) →
      runBatch process plans =
        .ok ({ total_processed := plans.length,
               succeeded := (plans.filter (processOk process)).length,
               failed := (plans.filter (fun p => !processOk process p)).length,
               leads_loaded :=
                 ((plans.filter (processOk process)).map (fun p => p.lead_count)).sum },
          plans.map (batchFileRecord process))) ∧
    (plans.map (batchFileRecord process)).length = plans.length ∧
    (∀ pre p post e, plans = pre ++ p :: post →
      (∀ q ∈ pre, processOk process q = true ∨
        ∃ e', process q = .error e' ∧ e'.isAnticipated = true) →
      process p = .error e → e.isAnticipated = false →
      runBatch process plans = .error e) := by
  refine ⟨?_, by simp, ?_⟩
  · intro h
    rw [runBatch, runBatchLoop_isolated process plans ⟨0, 0, 0, 0⟩ [] h]
    simp
  · intro pre p post e hplans hpre hp hant
    rw [hplans, runBatch]
    exact runBatchLoop_propagates process p post e hp hant pre ⟨0, 0, 0, 0⟩ [] hpre

/-- Witness for C4: two files, the first succeeding with 2 leads and the
second failing with an anticipated `ApiError`; the summary counts 2/1/1 with
2 leads loaded, and the records name the outcomes. -/
theorem batch_failure_isolation_witness :
    runBatch
        (fun p => if p.path = "a.csv" then
          .ok { campaign_id := 901, lead_list_id := 601, lead_list_status := "Processed" }
         else .error (.apiExc "API error (500)."))
        [{ path := "a.csv", campaign_name := "District A", lead_count := 2,
           columns_to_map := [] },
         { path := "b.csv", campaign_name := "District B", lead_count := 1,
           columns_to_map := [] }] =
      .ok ({ total_processed := 2, succeeded := 1, failed := 1, leads_loaded := 2 },
        [.ok "a.csv" "District A" 901 601 "Processed" 2,
         .err "b.csv" "District B" 1 "ApiError" "API error (500)."]) := by
  have h := (batch_failure_isolation
    (fun p => if p.path = "a.csv" then
      .ok { campaign_id := 901, lead_list_id := 601, lead_list_status := "Processed" }
     else .error (.apiExc "API error (500)."))
    [{ path := "a.csv", campaign_name := "District A", lead_count := 2,
       columns_to_map := [] },
     { path := "b.csv", campaign_name := "District B", lead_count := 1,
       columns_to_map := [] }]).1
  exact h (by
    intro p hp
    simp only [List.mem_cons, List.not_mem_nil, or_false] at hp
    rcases hp with rfl | rfl
    · exact Or.inl rfl
    · exact Or.inr ⟨.apiExc "API error (500).", rfl, rfl⟩)

/-- C9: outside dry-run, an empty `--sender-email-id` list fails the batch
command with the dedicated validation error, for every plan builder and every
network behaviour alike — the check runs before any CSV plan is built and
before any remote call; in dry-run mode no sender ids are required and the
dry-run report is produced from the plans alone. -/
theorem batch_missing_sender_ids_check (dirStr : String) (cfg : SharedBatchConfig)
    (loadShared : Unit → Except WError SharedBatchConfig)
    (hload : loadShared () = .ok cfg) :
    (∀ buildPlans process,
      createBatchCommand false [] dirStr loadShared buildPlans process =
        .frontError (.validation missingSenderIdsMsg)) ∧
    (∀ bp1 bp2 pr1 pr2,
      createBatchCommand false [] dirStr loadShared bp1 pr1 =
        createBatchCommand false [] dirStr loadShared bp2 pr2) ∧
    (∀ buildPlans process plans, buildPlans () = .ok plans → plans ≠ [] →
      createBatchCommand true [] dirStr loadShared buildPlans process =
        .dryRunReport
          { total_processed := plans.length, succeeded := plans.length, failed := 0,
            leads_loaded := (plans.map (fun p => p.lead_count)).sum } plans) := by
  have hfail : ∀ (buildPlans : Unit → Except WError (List BatchFilePlan))
      (process : BatchFilePlan → Except PyExc BatchPlanSuccess),
      createBatchCommand false [] dirStr loadShared buildPlans process =
        .frontError (.validation missingSenderIdsMsg) := by
    intro buildPlans process
    simp [createBatchCommand, createBatchFront, hload]
  refine ⟨hfail, ?_, ?_⟩
  · intro bp1 bp2 pr1 pr2
    rw [hfail bp1 pr1, hfail bp2 pr2]
  · intro buildPlans process plans hplans hne
    have hEmpty : plans.isEmpty = false := by
      cases h : plans with
      | nil => exact absurd h hne
      | cons a l => rfl
    simp [createBatchCommand, createBatchFront, hload, hplans, hEmpty]

/-- Witness for C9: with one concrete plan, the non-dry-run command without
sender ids fails up front, and the dry-run command reports the plan. -/
theorem batch_missing_sender_ids_check_witness :
    createBatchCommand false [] "districts" (fun _ => .ok {})
        (fun _ => .ok [{ path := "a.csv", campaign_name := "District A", lead_count := 2, columns_to_map := [] }])
        (fun _ => .error (.otherExc "RuntimeError" "no network in this test")) =
      .frontError (.validation missingSenderIdsMsg) ∧
    createBatchCommand true [] "districts" (fun _ => .ok {})
        (fun _ => .ok [{ path := "a.csv", campaign_name := "District A", lead_count := 2, columns_to_map := [] }])
        (fun _ => .error (.otherExc "RuntimeError" "no network in this test")) =
      .dryRunReport { total_processed := 1, succeeded := 1, failed := 0, leads_loaded := 2 }
        [{ path := "a.csv", campaign_name := "District A", lead_count := 2, columns_to_map := [] }] := by
  constructor
  · exact (batch_missing_sender_ids_check "districts" {} (fun _ => .ok {}) rfl).1 _ _
  · exact (batch_missing_sender_ids_check "districts" {} (fun _ => .ok {}) rfl).2.2
      (fun _ => .ok [{ path := "a.csv", campaign_name := "District A", lead_count := 2, columns_to_map := [] }])
      (fun _ => .error (.otherExc "RuntimeError" "no network in this test"))
      [{ path := "a.csv", campaign_name := "District A", lead_count := 2, columns_to_map := [] }] rfl (by simp)

/-- Inserting a fresh key into a Python dict appends it. -/
theorem insertDict_of_not_mem {α : Type} [DecidableEq α] {β : Type} :
    ∀ (d : List (α × β)) (k : α) (v : β), k ∉ d.map Prod.fst →
      insertDict d k v = d ++ [(k, v)]
  | [], _, _, _ => rfl
  | (k', v') :: rest, k, v, h => by
    have hne : k' ≠ k := fun he => h (by simp [he])
    simp only [insertDict, if_neg hne, List.cons_append]
    rw [insertDict_of_not_mem rest k v (fun hm => h (by simp [hm]))]

/-- Folding dict insertion over pairwise-fresh keys just appends the pairs. -/
theorem foldl_insertDict_of_nodup {α : Type} [DecidableEq α] {β : Type} :
    ∀ (seq : List (α × β)) (acc : List (α × β)), (seq.map Prod.fst).Nodup →
      (∀ k, k ∈ seq.map Prod.fst → k ∉ acc.map Prod.fst) →
      seq.foldl (fun d p => insertDict d p.1 p.2) acc = acc ++ seq
  | [], acc, _, _ => by simp
  | (k, v) :: rest, acc, hnodup, hfresh => by
    simp only [List.foldl_cons]
    rw [insertDict_of_not_mem acc k v (hfresh k (by simp))]
    rw [foldl_insertDict_of_nodup rest (acc ++ [(k, v)])
      (by simpa using hnodup.of_cons)
      (fun k' hk' => by
        simp only [List.map_append, List.mem_append, List.map_cons, List.map_nil,
          List.mem_singleton, not_or]
        refine ⟨hfresh k' (by simp [hk']), ?_⟩
        intro he
        subst he
        exact (List.nodup_cons.mp (by simpa using hnodup)).1 hk')]
    simp

/-- The first components of a zip are a prefix of the first list. -/
theorem map_fst_zip_take {α β : Type} :
    ∀ (l1 : List α) (l2 : List β), (l1.zip l2).map Prod.fst = l1.take l2.length
  | [], _ => by simp
  | _ :: _, [] => by simp
  | a :: as, b :: bs => by
    simp only [List.zip_cons_cons, List.map_cons, List.length_cons, List.take_succ_cons]
    rw [map_fst_zip_take as bs]

/-- For a duplicate-free header and a row no longer than it, the DictReader
row dict is exactly the zipped cells followed by the `None` padding. -/
theorem dictOfRow_of_nodup (fieldnames r : List String)
    (hnodup : fieldnames.Nodup) (hlen : r.length ≤ fieldnames.length) :
    dictOfRow fieldnames r =
      ((fieldnames.zip r).map (fun p => (some p.1, CellVal.cell p.2))) ++
        ((fieldnames.drop r.length).map (fun k => (some k, CellVal.omitted))) := by
  simp only [dictOfRow, if_neg (by omega : ¬fieldnames.length < r.length),
    List.append_nil]
  rw [foldl_insertDict_of_nodup _ []]
  · simp
  · have hkeys : ((((fieldnames.zip r).map (fun p => (some p.1, CellVal.cell p.2))) ++
        ((fieldnames.drop r.length).map (fun k => (some k, CellVal.omitted)))).map
          Prod.fst) = fieldnames.map some := by
      rw [List.map_append, List.map_map, List.map_map]
      have e1 : ((Prod.fst : Option String × CellVal → Option String) ∘
          (fun p : String × String => ((some p.1 : Option String), CellVal.cell p.2))) =
          (some ∘ Prod.fst) := rfl
      have e2 : ((Prod.fst : Option String × CellVal → Option String) ∘
          (fun k : String => ((some k : Option String), CellVal.omitted))) =
          (some : String → Option String) := rfl
      rw [e1, e2, ← List.map_map, map_fst_zip_take, ← List.map_append,
        List.take_append_drop]
    rw [hkeys]
    exact hnodup.map (fun a b hab => Option.some.inj hab)
  · simp

/-- For a duplicate-free header and a row no longer than it, the row counts
exactly when one of its cells has non-whitespace content — the claim's
formulation. -/
theorem rowTruthy_dictOfRow (fieldnames r : List String)
    (hnodup : fieldnames.Nodup) (hlen : r.length ≤ fieldnames.length) :
    rowTruthy (dictOfRow fieldnames r) = r.any (fun c => pyStrip c ≠ "") := by
  rw [rowTruthy, dictOfRow_of_nodup fieldnames r hnodup hlen]
  have hA : ∀ l : List (String × String),
      ((l.map (fun p => ((some p.1 : Option String), CellVal.cell p.2))).any
        (fun p => cellTruthy p.2)) =
      (l.map Prod.snd).any (fun c => pyStrip c ≠ "") := by
    intro l
    induction l with
    | nil => rfl
    | cons p rest ih =>
      simp only [List.map_cons, List.any_cons, ih]
      rfl
  have hB : ∀ l : List String,
      ((l.map (fun k => ((some k : Option String), CellVal.omitted))).any
        (fun p => cellTruthy p.2)) = false := by
    intro l
    induction l with
    | nil => rfl
    | cons k rest ih =>
      simp only [List.map_cons, List.any_cons, ih]
      rfl
  rw [List.any_append, hA, hB, Bool.or_false, List.map_snd_zip fieldnames r hlen]

/-- The code-side lead count agrees with the claim's cell-level count for
duplicate-free headers and rows no longer than the header (a blank row —
skipped by `DictReader` — has no non-whitespace cell either way). -/
theorem leadCount_eq_specLeadRowCount (fieldnames : List String)
    (hnodup : fieldnames.Nodup) :
    ∀ (t : List (List String)), (∀ r, r ∈ t → r.length ≤ fieldnames.length) →
      ((t.filter (fun r => ¬r.isEmpty)).map (dictOfRow fieldnames)).countP rowTruthy =
        t.countP (fun r => r.any (fun c => pyStrip c ≠ ""))
  | [], _ => by simp
  | r :: rest, hlen => by
    have ih := leadCount_eq_specLeadRowCount fieldnames hnodup rest
      (fun q hq => hlen q (List.mem_cons_of_mem r hq))
    cases hre : r.isEmpty with
    | true =>
      have hr : r = [] := List.isEmpty_iff.mp (by simp [hre])
      subst hr
      rw [List.filter_cons_of_neg (by simp), List.countP_cons, ih]
      simp
    | false =>
      rw [List.filter_cons_of_pos (by simp [hre]), List.map_cons, List.countP_cons,
        List.countP_cons,
        rowTruthy_dictOfRow fieldnames r hnodup (hlen r (List.mem_cons_self r rest)), ih]

/-- C7 (amended): the plan builder fails with a validation error naming the
file when the header row is absent (or blank), when one of the three required
roles cannot be resolved through the alias table, or when no data row counts;
otherwise it returns a plan whose `lead_count` is the number of data rows
whose DictReader row dict has a truthy value (`rowTruthy ∘ dictOfRow`).  For
a duplicate-free header with no data row longer than it, that number equals
the claim's formulation — the number of data rows having at least one cell
with non-whitespace content after stripping; rows longer than the header
always count through the overflow rest value, and duplicated header names
collapse cells before the emptiness check (see the counterexample). -/
theorem buildBatchPlan_validation (csvPath : FsPath) (rawRows : List (List String)) :
    ((rawRows.head? = none ∨ rawRows.head? = some []) →
      buildBatchPlan csvPath rawRows =
        .error (.validation ("CSV has no header row: " ++ csvPath.full))) ∧
    (∀ fieldnames, rawRows.head? = some fieldnames → fieldnames ≠ [] →
      (pickCsvColumn fieldnames firstNameAliases = none ∨
        pickCsvColumn fieldnames lastNameAliases = none ∨
        pickCsvColumn fieldnames emailAliases = none) →
      buildBatchPlan csvPath rawRows =
        .error (.validation
          ("CSV missing required columns (first_name,last_name,email): " ++ csvPath.full))) ∧
    (∀ fieldnames firstCol lastCol emailCol, rawRows.head? = some fieldnames →
      fieldnames ≠ [] →
      pickCsvColumn fieldnames firstNameAliases = some firstCol →
      pickCsvColumn fieldnames lastNameAliases = some lastCol →
      pickCsvColumn fieldnames emailAliases = some emailCol →
      (((((rawRows.tail).filter (fun r => ¬r.isEmpty)).map (dictOfRow fieldnames)).countP
          rowTruthy) = 0 →
        buildBatchPlan csvPath rawRows =
          .error (.validation ("CSV contains no lead rows: " ++ csvPath.full))) ∧
      (∀ n, ((((rawRows.tail).filter (fun r => ¬r.isEmpty)).map
            (dictOfRow fieldnames)).countP rowTruthy) = n → n ≠ 0 →
        ∃ plan, buildBatchPlan csvPath rawRows = .ok plan ∧ plan.lead_count = n ∧
          plan.columns_to_map = [("first_name", firstCol), ("last_name", lastCol),
            ("email", emailCol)] ∧ plan.path = csvPath.full) ∧
      (fieldnames.Nodup → (∀ r, r ∈ rawRows.tail → r.length ≤ fieldnames.length) →
        ((((rawRows.tail).filter (fun r => ¬r.isEmpty)).map (dictOfRow fieldnames)).countP
          rowTruthy) = specLeadRowCount rawRows)) := by
  refine ⟨?_, ?_, ?_⟩
  · rintro (h | h)
    · simp [buildBatchPlan, h]
    · simp [buildBatchPlan, h]
  · intro fieldnames hhead hne hdis
    have hEmpty : fieldnames.isEmpty = false := by
      cases fieldnames with
      | nil => exact absurd rfl hne
      | cons a l => rfl
    rcases hdis with hd | hd | hd
    · cases h2 : pickCsvColumn fieldnames lastNameAliases <;>
        cases h3 : pickCsvColumn fieldnames emailAliases <;>
        simp [buildBatchPlan, hhead, hEmpty, hd, h2, h3]
    · cases h1 : pickCsvColumn fieldnames firstNameAliases <;>
        cases h3 : pickCsvColumn fieldnames emailAliases <;>
        simp [buildBatchPlan, hhead, hEmpty, hd, h1, h3]
    · cases h1 : pickCsvColumn fieldnames firstNameAliases <;>
        cases h2 : pickCsvColumn fieldnames lastNameAliases <;>
        simp [buildBatchPlan, hhead, hEmpty, hd, h1, h2]
  · intro fieldnames firstCol lastCol emailCol hhead hne hf hl he
    have hEmpty : fieldnames.isEmpty = false := by
      cases fieldnames with
      | nil => exact absurd rfl hne
      | cons a l => rfl
    refine ⟨?_, ?_, ?_⟩
    · intro hz
      simp only [buildBatchPlan, hhead, hEmpty, Bool.false_eq_true, if_false,
        hf, hl, he, hz]
      simp
    · intro n hn hnz
      simp only [buildBatchPlan, hhead, hEmpty, Bool.false_eq_true, if_false, hf, hl, he,
        hn, if_neg hnz]
      exact ⟨_, rfl, rfl, rfl, rfl⟩
    · intro hnodup hlen
      exact leadCount_eq_specLeadRowCount fieldnames hnodup rawRows.tail hlen

/-- C7 counterexample: a data row longer than the header whose extra cell is
whitespace-only.  No cell has non-whitespace content after stripping (the
claim's count is 0, demanding a validation error), yet `csv.DictReader`
collects the overflow cells into a list under the rest key, `str` of a list
is never whitespace-only, so the code counts the row and happily builds a
plan with `lead_count = 1`. -/
theorem buildBatchPlan_overflow_counterexample :
    buildBatchPlan ⟨"x.csv", "x.csv", "x"⟩
        [["first_name", "last_name", "email"], ["", "", "", "  "]] =
      .ok { path := "x.csv", campaign_name := "x", lead_count := 1,
            columns_to_map := [("first_name", "first_name"), ("last_name", "last_name"),
              ("email", "email")] } ∧
    specLeadRowCount [["first_name", "last_name", "email"], ["", "", "", "  "]] = 0 :=
  ⟨rfl, rfl⟩

/-- Witness for C7: the three validation failures at concrete files, and a
well-formed two-row district CSV whose code count and claim count agree. -/
theorem buildBatchPlan_validation_witness :
    buildBatchPlan ⟨"d.csv", "d.csv", "d"⟩ [] =
      .error (.validation "CSV has no header row: d.csv") ∧
    buildBatchPlan ⟨"d.csv", "d.csv", "d"⟩ [["foo"]] =
      .error (.validation "CSV missing required columns (first_name,last_name,email): d.csv") ∧
    buildBatchPlan ⟨"d.csv", "d.csv", "d"⟩ [["first_name", "last_name", "email"]] =
      .error (.validation "CSV contains no lead rows: d.csv") ∧
    ((([["Alex", "One", "a1@example.com", "District A"],
        ["Blair", "Two", "b2@example.com", "District A"]].filter
          (fun r => ¬r.isEmpty)).map
        (dictOfRow ["first_name", "last_name", "email", "district_name"])).countP
      rowTruthy) =
      specLeadRowCount [["first_name", "last_name", "email", "district_name"],
        ["Alex", "One", "a1@example.com", "District A"],
        ["Blair", "Two", "b2@example.com", "District A"]] ∧
    buildBatchPlan ⟨"d.csv", "d.csv", "d"⟩
        [["first_name", "last_name", "email", "district_name"],
         ["Alex", "One", "a1@example.com", "District A"],
         ["Blair", "Two", "b2@example.com", "District A"]] =
      .ok { path := "d.csv", campaign_name := "District A", lead_count := 2,
            columns_to_map := [("first_name", "first_name"), ("last_name", "last_name"),
              ("email", "email")] } := by
  refine ⟨?_, ?_, ?_, ?_, rfl⟩
  · exact (buildBatchPlan_validation ⟨"d.csv", "d.csv", "d"⟩ []).1 (Or.inl rfl)
  · exact (buildBatchPlan_validation ⟨"d.csv", "d.csv", "d"⟩ [["foo"]]).2.1
      ["foo"] rfl (by decide) (Or.inl rfl)
  · exact ((buildBatchPlan_validation ⟨"d.csv", "d.csv", "d"⟩
      [["first_name", "last_name", "email"]]).2.2
      ["first_name", "last_name", "email"] "first_name" "last_name" "email"
      rfl (by decide) rfl rfl rfl).1 rfl
  · exact ((buildBatchPlan_validation ⟨"d.csv", "d.csv", "d"⟩
      [["first_name", "last_name", "email", "district_name"],
       ["Alex", "One", "a1@example.com", "District A"],
       ["Blair", "Two", "b2@example.com", "District A"]]).2.2
      ["first_name", "last_name", "email", "district_name"]
      "first_name" "last_name" "email"
      rfl (by decide) rfl rfl rfl).2.2 (by decide) (by decide)
